import Mathlib

/-!
# NourishLink — Donation/Task lifecycle engine, shallow embedding

This file embeds the donation-lifecycle core of the NourishLink server
(`server/routes/donationRoutes` as mounted in `server.js`, together with the
Mongoose models `taskModel.js`, `metricsModel.js`, `organizationModel.js`) and
the proximity-ranking helper of `client/src/services/donationService.js`, and
proves properties of the embedded operations.

Modelling conventions:
* Mongo collections are lists of records; `findOne` is `List.find?` on the
  filter, `findOneAndUpdate` updates the first record matching the filter
  (`updateFirst`) and returns the updated record, `create`/`save` appends.
* Mongo `_id` is the `mid` field of a task; the caller-visible `taskId` is a
  separate field, exactly as in the source (`updateTaskStatus` and
  `reportIssue` look tasks up by `_id`, `reassignTask` by `taskId`).
* The unique indexes on `donationId`, `taskId` and `_id` are modelled by a
  duplicate-key guard before the insert (a duplicate insert throws in Mongo and
  is turned into the route's 500 catch-all response, with no write applied).
* Dates (`Date.now()`, `new Date()`) are opaque `Nat` instants supplied by the
  caller as `now`; the free-text `availabilityTime` of the request body is kept
  as the string sent by the client.
* Statuses are the exact strings the JavaScript writes (`"pendingAssignment"`,
  `"pending_review"`, ...); they are deliberately NOT an enum, because
  `findOneAndUpdate` bypasses Mongoose enum validation (which is how
  `"pending_review"`, absent from `TaskStatus`, gets stored).
* A failure of the entity store inside one of the `try { ...metrics... }
  catch` blocks is modelled by the boolean `metricsOk`: when `false`, the
  metrics write is skipped (the exception is caught and only logged, so no
  metrics write lands and nothing else is affected).
* HTTP error responses are `ApiError` values tagged with the response status
  family and the exact message string of the source.
-/

namespace NourishLink

/-- HTTP-level error outcomes of a route, with the source's message strings.
`forbidden` = 403, `badRequest` = 400, `notFound` = 404, `serverError` = 500. -/
inductive ApiError where
  | forbidden (msg : String)
  | badRequest (msg : String)
  | notFound (msg : String)
  | serverError (msg : String)
  deriving DecidableEq

/-- The authenticated caller attached to a request by the `verifyAuth`
middleware in `server.js` (`req.user`): Firebase uid, display name, role. -/
structure Caller where
  uid : String
  name : String
  role : String
  deriving DecidableEq

/-- A Donation document (fields written by the donation routes; schema defaults
mirror the create site in `POST /post`). Coordinates are `[longitude,
latitude]` pairs carried opaquely as rationals. -/
structure Donation where
  donationId : String
  donorId : String
  donorName : String
  itemType : String
  quantity : String
  notes : Option String := none
  status : String
  pickupCoordinates : List ℚ
  pickupAddress : String
  availabilityTime : String
  postedAt : Nat
  collectedAt : Option Nat := none
  deliveredAt : Option Nat := none
  collectedByVolunteerId : Option String := none
  distributionVolunteerId : Option String := none
  dropoffCoordinates : Option (List ℚ) := none
  dropoffAddress : Option String := none
  deriving DecidableEq

/-- A Task document (`taskModel.js`). `mid` is the Mongo `_id`; `taskId` is the
application-level id field. Defaults are the schema defaults. -/
structure Task where
  mid : String
  taskId : String
  donationId : String
  volunteerId : String
  taskType : String
  status : String
  locationCoordinates : List ℚ
  address : String
  assignedAt : Nat
  startedAt : Option Nat := none
  completedAt : Option Nat := none
  notes : Option String := none
  issueReported : Bool := false
  issueNotes : Option String := none
  deriving DecidableEq

/-- A Metrics document (`metricsModel.js`), one per user; numeric schema
defaults are 0 (rating defaults to 5, reviewCount to 0). -/
structure Metrics where
  metricsId : String
  userId : String
  userType : String
  tasksCompleted : Nat := 0
  tasksAssigned : Nat := 0
  donationsCollected : Nat := 0
  donationsDelivered : Nat := 0
  totalDonationsPosted : Nat := 0
  foodItemsCollected : Nat := 0
  rating : ℚ := 5
  reviewCount : Nat := 0
  createdAt : Nat
  updatedAt : Nat
  deriving DecidableEq

/-- An Organization document (`organizationModel.js`), used as a distribution
center catalog; static reference data for the routes modelled here. -/
structure Organization where
  organizationId : String
  name : String
  address : String
  coordinates : List ℚ
  deriving DecidableEq

/-- The entity store: the four collections the lifecycle routes touch. -/
structure DB where
  donations : List Donation
  tasks : List Task
  metrics : List Metrics
  orgs : List Organization
  deriving DecidableEq

/-- Mongo findOneAndUpdate: apply `f` to the first element satisfying `p`, leave
everything else in place. -/
def updateFirst (p : α → Bool) (f : α → α) : List α → List α
  | [] => []
  | x :: xs => if p x then f x :: xs else x :: updateFirst p f xs

/-- Models the JavaScript `Number(quantity) || 0` in the post-donation metrics
block, restricted to the whole-number quantities this counter tracks: a string
of decimal digits (possibly surrounded by spaces) coerces to its value; every
other string — `NaN` cases such as `"10 lbs"`, and the empty/blank string,
which JS coerces to `0` — contributes `0`.  Fractional quantities are outside
the scope of the claims and are not modelled. -/
def jsNumberOrZero (s : String) : Nat :=
  let cs := ((s.data.dropWhile (fun c => c = ' ')).reverse.dropWhile
    (fun c => c = ' ')).reverse
  if cs ≠ [] ∧ cs.all (fun c => c.isDigit) then
    cs.foldl (fun n c => n * 10 + (c.toNat - 48)) 0
  else 0

/-- The `updateMetrics` helper of `metricsModel.js`: `findOneAndUpdate({userId},
{...updateData, updatedAt: Date.now()})`. -/
def updateMetricsByUserId (uid : String) (f : Metrics → Metrics) (now : Nat)
    (l : List Metrics) : List Metrics :=
  updateFirst (fun m => m.userId == uid) (fun m => { f m with updatedAt := now }) l

/-- The donor-metrics block of `POST /post`: create-if-absent, incrementing
`totalDonationsPosted` and `foodItemsCollected` by the parsed quantity. -/
def postDonationMetrics (uid mId : String) (qty now : Nat)
    (l : List Metrics) : List Metrics :=
  match l.find? (fun m => m.userId == uid) with
  | none =>
      l ++ [{ metricsId := mId, userId := uid, userType := "Donor",
              totalDonationsPosted := 1, foodItemsCollected := qty,
              createdAt := now, updatedAt := now }]
  | some m =>
      updateMetricsByUserId uid
        (fun cur => { cur with
          totalDonationsPosted := m.totalDonationsPosted + 1,
          foodItemsCollected := m.foodItemsCollected + qty }) now l

/-- The volunteer-metrics block of the two assignment routes: create-if-absent,
incrementing `tasksAssigned`. -/
def assignTaskMetrics (uid mId : String) (now : Nat)
    (l : List Metrics) : List Metrics :=
  match l.find? (fun m => m.userId == uid) with
  | none =>
      l ++ [{ metricsId := mId, userId := uid, userType := "Volunteer",
              tasksAssigned := 1, createdAt := now, updatedAt := now }]
  | some m =>
      updateMetricsByUserId uid
        (fun cur => { cur with tasksAssigned := m.tasksAssigned + 1 }) now l

/-- The update document sent to `updateMetrics` when a task completes and a
metrics record `m` already exists: `tasksCompleted` plus one, and, depending on
the task type, `donationsCollected` or `donationsDelivered` plus one (values
computed from the previously read record `m`, as in the source). -/
def completeBump (m : Metrics) (taskType : String) (cur : Metrics) : Metrics :=
  let c1 := { cur with tasksCompleted := m.tasksCompleted + 1 }
  let c2 := if taskType == "collection" then
    { c1 with donationsCollected := m.donationsCollected + 1 } else c1
  if taskType == "distribution" then
    { c2 with donationsDelivered := m.donationsDelivered + 1 } else c2

/-- The completion-metrics block of `PUT /:taskId/status`: create-if-absent,
incrementing `tasksCompleted` plus `donationsCollected` or `donationsDelivered`
according to the task's type. -/
def completeTaskMetrics (uid mId taskType : String) (now : Nat)
    (l : List Metrics) : List Metrics :=
  match l.find? (fun m => m.userId == uid) with
  | none =>
      l ++ [{ metricsId := mId, userId := uid, userType := "Volunteer",
              tasksCompleted := 1,
              donationsCollected := if taskType == "collection" then 1 else 0,
              donationsDelivered := if taskType == "distribution" then 1 else 0,
              createdAt := now, updatedAt := now }]
  | some m =>
      updateMetricsByUserId uid (completeBump m taskType) now l

/-- Route `POST /api/donations/post`: a Donor or Admin posts a donation; it is stored
with status `"pendingAssignment"`, then the donor metrics block runs inside its
own try/catch. Returns the donation of the 201 response. `docId`/`mId` are the
generated ObjectId hex strings, `now` the request instant. -/
def postDonation (user : Caller) (itemType quantity pickupAddress : String)
    (pickupCoordinates : Option (List ℚ)) (availabilityTime : String)
    (notes : Option String) (docId mId : String) (now : Nat) (metricsOk : Bool)
    (db : DB) : Except ApiError Donation × DB :=
  if ¬(user.role = "Donor" ∨ user.role = "Admin") then
    (.error (.forbidden "Access denied. Donor or Admin role required."), db)
  else
    match pickupCoordinates with
    | none => (.error (.badRequest "Missing required donation fields."), db)
    | some coords =>
      if itemType = "" ∨ quantity = "" ∨ pickupAddress = "" ∨ availabilityTime = "" then
        (.error (.badRequest "Missing required donation fields."), db)
      else if db.donations.any (fun d => d.donationId == docId) then
        (.error (.serverError "Failed to post donation."), db)
      else
        let newDonation : Donation :=
          { donationId := docId, donorId := user.uid, donorName := user.name,
            itemType := itemType, quantity := quantity, notes := notes,
            status := "pendingAssignment", pickupCoordinates := coords,
            pickupAddress := pickupAddress, availabilityTime := availabilityTime,
            postedAt := now }
        let metrics1 :=
          if metricsOk then
            postDonationMetrics user.uid mId (jsNumberOrZero quantity) now db.metrics
          else db.metrics
        (.ok newDonation,
          { db with donations := db.donations ++ [newDonation], metrics := metrics1 })

/-- Route `PUT /assign-collection-task/:id`: Admin assigns a collection task for a
donation that must currently be `"pendingAssignment"`; creates the task with a
snapshot of the pickup location, bumps `tasksAssigned` (inside try/catch), then
advances the donation to `"assignedForCollection"`. Returns the pair of the
response (updated donation, created task). -/
def assignCollectionTask (user : Caller) (donationId volunteerId : String)
    (taskMid taskId mId : String) (now : Nat) (metricsOk : Bool)
    (db : DB) : Except ApiError (Donation × Task) × DB :=
  if user.role ≠ "Admin" then
    (.error (.forbidden "Access denied. Admin role required."), db)
  else if volunteerId = "" then
    (.error (.badRequest "Volunteer ID is required for assignment."), db)
  else
    match db.donations.find?
        (fun d => d.donationId == donationId && d.status == "pendingAssignment") with
    | none =>
        (.error (.notFound "Donation not found or status is not pendingAssignment."), db)
    | some donation =>
      if db.tasks.any (fun t => t.taskId == taskId || t.mid == taskMid) then
        (.error (.serverError "Failed to assign task."), db)
      else
        let task : Task :=
          { mid := taskMid, taskId := taskId, donationId := donationId,
            volunteerId := volunteerId, taskType := "collection",
            status := "assigned",
            locationCoordinates := donation.pickupCoordinates,
            address := donation.pickupAddress, assignedAt := now }
        let metrics1 :=
          if metricsOk then assignTaskMetrics volunteerId mId now db.metrics
          else db.metrics
        let donations1 :=
          updateFirst (fun d => d.donationId == donationId)
            (fun d => { d with status := "assignedForCollection" }) db.donations
        let updatedDonation :=
          (donations1.find? (fun d => d.donationId == donationId)).getD
            { donation with status := "assignedForCollection" }
        (.ok (updatedDonation, task),
          { db with donations := donations1, tasks := db.tasks ++ [task],
                    metrics := metrics1 })

/-- Route `PUT /assign-distribution-task/:id`: Admin assigns a distribution task; the
drop-off organization must resolve and the donation must currently be
`"collected"`; creates the task with a snapshot of the organization's location,
bumps `tasksAssigned`, then advances the donation to
`"assignedForDistribution"` storing the drop-off snapshot on it too. -/
def assignDistributionTask (user : Caller) (donationId volunteerId locationId : String)
    (taskMid taskId mId : String) (now : Nat) (metricsOk : Bool)
    (db : DB) : Except ApiError (Donation × Task) × DB :=
  if user.role ≠ "Admin" then
    (.error (.forbidden "Access denied. Admin role required."), db)
  else if volunteerId = "" ∨ locationId = "" then
    (.error (.badRequest "Volunteer ID and Location ID are required."), db)
  else
    match db.orgs.find? (fun o => o.organizationId == locationId) with
    | none => (.error (.notFound "Invalid drop-off location selected."), db)
    | some org =>
      match db.donations.find?
          (fun d => d.donationId == donationId && d.status == "collected") with
      | none =>
          (.error (.notFound "Donation not found or not yet collected."), db)
      | some donation =>
        if db.tasks.any (fun t => t.taskId == taskId || t.mid == taskMid) then
          (.error (.serverError "Failed to assign distribution task."), db)
        else
          let task : Task :=
            { mid := taskMid, taskId := taskId, donationId := donationId,
              volunteerId := volunteerId, taskType := "distribution",
              status := "assigned",
              locationCoordinates := org.coordinates,
              address := org.address, assignedAt := now }
          let metrics1 :=
            if metricsOk then assignTaskMetrics volunteerId mId now db.metrics
            else db.metrics
          let donations1 :=
            updateFirst (fun d => d.donationId == donationId)
              (fun d => { d with status := "assignedForDistribution",
                                 dropoffCoordinates := some org.coordinates,
                                 dropoffAddress := some org.address }) db.donations
          let updatedDonation :=
            (donations1.find? (fun d => d.donationId == donationId)).getD
              { donation with status := "assignedForDistribution",
                              dropoffCoordinates := some org.coordinates,
                              dropoffAddress := some org.address }
          (.ok (updatedDonation, task),
            { db with donations := donations1, tasks := db.tasks ++ [task],
                      metrics := metrics1 })

/-- The task update written by `PUT /:taskId/status`: the new status plus a
`completedAt` stamp on `"completed"` and a `startedAt` stamp on `"enRoute"`. -/
def taskStatusUpdate (status : String) (now : Nat) (t : Task) : Task :=
  if status = "completed" then { t with status := status, completedAt := some now }
  else if status = "enRoute" then { t with status := status, startedAt := some now }
  else { t with status := status }

/-- Route `PUT /:taskId/status` (`taskId` here is the Mongo `_id`): a Volunteer moves
their own task to one of `enRoute/completed/cancelled/failed`, provided no
issue is filed against it; on `"completed"` the linked donation (if it exists)
is driven to `"collected"` or `"delivered"` according to the task type, and the
completion metrics block runs inside its own try/catch. -/
def updateTaskStatus (user : Caller) (taskId status : String) (now : Nat)
    (metricsOk : Bool) (mId : String) (db : DB) : Except ApiError Task × DB :=
  if user.role ≠ "Volunteer" then
    (.error (.forbidden "Access denied. Volunteer role required."), db)
  else if ¬(status = "enRoute" ∨ status = "completed" ∨ status = "cancelled" ∨
            status = "failed") then
    (.error (.badRequest "Invalid or missing new status."), db)
  else
    match db.tasks.find? (fun t => t.mid == taskId) with
    | none => (.error (.forbidden "Forbidden. Task not found."), db)
    | some task =>
      if task.volunteerId ≠ user.uid then
        (.error (.forbidden "Forbidden. You are not assigned to this task."), db)
      else if task.issueReported = true ∨ task.status = "pending_review" then
        (.error (.badRequest
          "Task is under Admin review (issue reported) and cannot have its status changed."), db)
      else
        let tasks1 := updateFirst (fun t => t.mid == taskId)
          (taskStatusUpdate status now) db.tasks
        let updatedTask :=
          (tasks1.find? (fun t => t.mid == taskId)).getD
            (taskStatusUpdate status now task)
        let donations1 :=
          match db.donations.find? (fun d => d.donationId == task.donationId) with
          | none => db.donations
          | some _ =>
            if task.taskType = "collection" ∧ status = "completed" then
              updateFirst (fun d => d.donationId == task.donationId)
                (fun d => { d with status := "collected", collectedAt := some now,
                                   collectedByVolunteerId := some user.uid })
                db.donations
            else if task.taskType = "distribution" ∧ status = "completed" then
              updateFirst (fun d => d.donationId == task.donationId)
                (fun d => { d with status := "delivered", deliveredAt := some now,
                                   distributionVolunteerId := some user.uid })
                db.donations
            else db.donations
        let metrics1 :=
          if status = "completed" ∧ metricsOk then
            completeTaskMetrics user.uid mId task.taskType now db.metrics
          else db.metrics
        (.ok updatedTask,
          { db with tasks := tasks1, donations := donations1, metrics := metrics1 })

/-- Route `PUT /report-issue/:taskId` (`taskId` is the Mongo `_id`): a Volunteer who
owns the task files an issue; the task gets `issueReported = true`, the notes,
and status `"pending_review"`. The donation is not touched. -/
def reportIssue (user : Caller) (taskId issueNotes : String)
    (db : DB) : Except ApiError Task × DB :=
  if user.role ≠ "Volunteer" then
    (.error (.forbidden "Access denied. Volunteer role required."), db)
  else if issueNotes = "" then
    (.error (.badRequest "Issue notes are required to report an issue."), db)
  else
    match db.tasks.find? (fun t => t.mid == taskId && t.volunteerId == user.uid) with
    | none =>
        (.error (.forbidden "Forbidden. Task not found or not assigned to you."), db)
    | some task =>
      let f : Task → Task := fun t =>
        { t with issueReported := true, issueNotes := some issueNotes,
                 status := "pending_review" }
      (.ok (f task),
        { db with tasks := updateFirst (fun t => t.mid == taskId) f db.tasks })

/-- Route `PUT /reassign-task/:taskId` (`taskId` is the application-level id field):
Admin hands the task to a new volunteer, resetting it to `"assigned"`, clearing
the issue flag and notes, and stamping a fresh `assignedAt`. -/
def reassignTask (user : Caller) (taskId newVolunteerId : String) (now : Nat)
    (db : DB) : Except ApiError Task × DB :=
  if user.role ≠ "Admin" then
    (.error (.forbidden "Access denied. Admin role required."), db)
  else if newVolunteerId = "" then
    (.error (.badRequest "New Volunteer ID is required for reassignment."), db)
  else
    match db.tasks.find? (fun t => t.taskId == taskId) with
    | none => (.error (.notFound "Task not found."), db)
    | some task =>
      let f : Task → Task := fun t =>
        { t with volunteerId := newVolunteerId, status := "assigned",
                 issueReported := false, issueNotes := none, assignedAt := now }
      (.ok (f task),
        { db with tasks := updateFirst (fun t => t.taskId == taskId) f db.tasks })

/-! ## Derived observations over the store -/

/-- Number of collection tasks for a given donation in a task list. -/
def collectionCountIn (tasks : List Task) (did : String) : Nat :=
  tasks.countP (fun t => t.donationId == did && t.taskType == "collection")

/-- Number of collection tasks ever created for a given donation. -/
def collectionTaskCount (db : DB) (did : String) : Nat :=
  collectionCountIn db.tasks did

/-- Number of distribution tasks ever created for a given donation. -/
def distributionTaskCount (db : DB) (did : String) : Nat :=
  db.tasks.countP (fun t => t.donationId == did && t.taskType == "distribution")

/-- The metrics record of a user, if any (`getMetricsByUserId`). -/
def metricsFor (db : DB) (uid : String) : Option Metrics :=
  db.metrics.find? (fun m => m.userId == uid)

/-- A user's `tasksCompleted` counter (0 when no record exists). -/
def tasksCompletedOf (db : DB) (uid : String) : Nat :=
  ((metricsFor db uid).map (·.tasksCompleted)).getD 0

/-- A user's `tasksAssigned` counter (0 when no record exists). -/
def tasksAssignedOf (db : DB) (uid : String) : Nat :=
  ((metricsFor db uid).map (·.tasksAssigned)).getD 0

/-- A user's `donationsCollected` counter (0 when no record exists). -/
def donationsCollectedOf (db : DB) (uid : String) : Nat :=
  ((metricsFor db uid).map (·.donationsCollected)).getD 0

/-- A user's `donationsDelivered` counter (0 when no record exists). -/
def donationsDeliveredOf (db : DB) (uid : String) : Nat :=
  ((metricsFor db uid).map (·.donationsDelivered)).getD 0

/-- The five donation lifecycle states of the spec (§4.1), in order. -/
def donationStatuses : List String :=
  ["pendingAssignment", "assignedForCollection", "collected",
   "assignedForDistribution", "delivered"]

/-- The response `assignCollectionTask` produces when the donation is not in
`"pendingAssignment"` (the spec's `PreconditionFailed` for collection;
surfaced by the source as a 404). -/
def preconditionFailedCollection : ApiError :=
  .notFound "Donation not found or status is not pendingAssignment."

/-- The response `assignDistributionTask` produces when the donation is not in
`"collected"` (the spec's `PreconditionFailed` for distribution). -/
def preconditionFailedDistribution : ApiError :=
  .notFound "Donation not found or not yet collected."

/-- The response `updateTaskStatus` produces on a task under issue review
(the spec's `TaskLocked`). -/
def taskLockedError : ApiError :=
  .badRequest "Task is under Admin review (issue reported) and cannot have its status changed."

/-! ## Reachability: arbitrary interleavings of the six core operations -/

/-- One core operation, with arbitrary caller, arguments, generated ids,
instant and metrics-store behaviour. -/
inductive Step : DB → DB → Prop where
  | post (user : Caller) (itemType quantity pickupAddress : String)
      (pickupCoordinates : Option (List ℚ)) (availabilityTime : String)
      (notes : Option String) (docId mId : String) (now : Nat) (metricsOk : Bool)
      (db : DB) :
      Step db (postDonation user itemType quantity pickupAddress pickupCoordinates
        availabilityTime notes docId mId now metricsOk db).2
  | assignCollection (user : Caller) (donationId volunteerId taskMid taskId mId : String)
      (now : Nat) (metricsOk : Bool) (db : DB) :
      Step db (assignCollectionTask user donationId volunteerId taskMid taskId mId
        now metricsOk db).2
  | assignDistribution (user : Caller)
      (donationId volunteerId locationId taskMid taskId mId : String)
      (now : Nat) (metricsOk : Bool) (db : DB) :
      Step db (assignDistributionTask user donationId volunteerId locationId taskMid
        taskId mId now metricsOk db).2
  | updateStatus (user : Caller) (taskId status : String) (now : Nat)
      (metricsOk : Bool) (mId : String) (db : DB) :
      Step db (updateTaskStatus user taskId status now metricsOk mId db).2
  | report (user : Caller) (taskId issueNotes : String) (db : DB) :
      Step db (reportIssue user taskId issueNotes db).2
  | reassign (user : Caller) (taskId newVolunteerId : String) (now : Nat) (db : DB) :
      Step db (reassignTask user taskId newVolunteerId now db).2

/-- The store a fresh deployment starts from: an arbitrary catalog of
distribution-center organizations and no donations, tasks or metrics. -/
def initDB (orgs : List Organization) : DB :=
  { donations := [], tasks := [], metrics := [], orgs := orgs }

/-- States reachable by any finite sequence of core operations. -/
def Reachable (db : DB) : Prop :=
  ∃ orgs, Relation.ReflTransGen Step (initDB orgs) db

/-- The inductive invariant carried through every operation: donation ids are
unique, tasks point at existing donations, a `"pendingAssignment"` donation has
no collection task yet, no donation ever has two collection tasks, and every
donation status is one of the five lifecycle values. -/
structure GoodState (donations : List Donation) (tasks : List Task) : Prop where
  nodup : (donations.map (·.donationId)).Nodup
  taskRef : ∀ t ∈ tasks, ∃ d ∈ donations, d.donationId = t.donationId
  pendingFree : ∀ d ∈ donations, d.status = "pendingAssignment" →
      collectionCountIn tasks d.donationId = 0
  collOne : ∀ did, collectionCountIn tasks did ≤ 1
  statusGood : ∀ d ∈ donations, d.status ∈ donationStatuses

/-- The invariant, read off a store. -/
def GoodDB (db : DB) : Prop :=
  GoodState db.donations db.tasks

/-! ## Proximity ranking (`donationService.js`, client side)

The haversine helper and the distance-sorting branch of `getVolunteers`,
over exact reals; a missing home coordinate is JS `Infinity`, modelled as `⊤`
in `WithTop ℝ`. -/

/-- Earth radius in kilometers (`const R = 6371`). -/
noncomputable def R : ℝ := 6371

/-- JavaScript's `Math.atan2(y, x)`. -/
noncomputable def atan2 (y x : ℝ) : ℝ :=
  if 0 < x then Real.arctan (y / x)
  else if x < 0 then
    (if 0 ≤ y then Real.arctan (y / x) + Real.pi
     else Real.arctan (y / x) - Real.pi)
  else
    (if 0 < y then Real.pi / 2 else if y < 0 then -(Real.pi / 2) else 0)

/-- The helper `calculateDistance(coord1, coord2)`: haversine distance in km between two
`[lng, lat]` coordinates (modelled as `(lng, lat)` pairs). -/
noncomputable def calculateDistance (coord1 coord2 : ℝ × ℝ) : ℝ :=
  let dLat := (coord2.2 - coord1.2) * (Real.pi / 180)
  let dLon := (coord2.1 - coord1.1) * (Real.pi / 180)
  let lat1 := coord1.2 * (Real.pi / 180)
  let lat2 := coord2.2 * (Real.pi / 180)
  let a := Real.sin (dLat / 2) * Real.sin (dLat / 2) +
           Real.sin (dLon / 2) * Real.sin (dLon / 2) * Real.cos lat1 * Real.cos lat2
  let c := 2 * atan2 (Real.sqrt a) (Real.sqrt (1 - a))
  R * c

/-- A volunteer as seen by the ranking code: only the optional home
coordinate matters (`v.homeLocation && v.homeLocation.coordinates`). -/
structure VolunteerInfo where
  uid : String
  name : String
  homeLocation : Option (ℝ × ℝ)

/-- The `distanceKm` attached to each volunteer before sorting: the haversine
distance from home to pickup, or `Infinity` (`⊤`) with no home coordinate. -/
noncomputable def distanceKm (pickupCoords : ℝ × ℝ) (v : VolunteerInfo) : WithTop ℝ :=
  match v.homeLocation with
  | some c => (calculateDistance c pickupCoords : ℝ)
  | none => ⊤

open Classical in
/-- The coordinate branch of `getVolunteers(pickupCoords)`: attach `distanceKm`
to every volunteer and sort ascending by it (`.sort((a, b) => a.distanceKm -
b.distanceKm)`, a comparison sort modelled by `mergeSort`). -/
noncomputable def getVolunteersRanked (volunteers : List VolunteerInfo)
    (pickupCoords : ℝ × ℝ) : List (VolunteerInfo × WithTop ℝ) :=
  (volunteers.map (fun v => (v, distanceKm pickupCoords v))).mergeSort
    (fun a b => decide (a.2 ≤ b.2))

/-! ## A concrete execution of the engine

One donation posted by a donor, driven through the lifecycle by an admin and
two volunteers; used to exhibit concrete behaviours of the operations. -/

/-- A distribution-center organization on file. -/
def demoOrg : Organization :=
  { organizationId := "11", name := "Community Food Center",
    address := "12 Center St", coordinates := [76, 10] }

/-- The admin caller. -/
def demoAdmin : Caller := { uid := "a1", name := "Alice", role := "Admin" }

/-- The donor caller. -/
def demoDonor : Caller := { uid := "don1", name := "Dana", role := "Donor" }

/-- The first volunteer. -/
def demoVol1 : Caller := { uid := "v1", name := "Vik", role := "Volunteer" }

/-- The second volunteer. -/
def demoVol2 : Caller := { uid := "v2", name := "Wen", role := "Volunteer" }

/-- The fresh deployment: only the organization catalog is populated. -/
def demoDB0 : DB := initDB [demoOrg]

/-- Step 1: the donor posts a donation `"d1"` with quantity `"10 lbs"`. -/
def demoPost : Except ApiError Donation × DB :=
  postDonation demoDonor "Rice" "10 lbs" "1 Main St" (some [76, 10])
    "2025-01-01T10:00" none "d1" "m1" 1 true demoDB0

/-- The store after step 1. -/
def demoDB1 : DB := demoPost.2

/-- Step 2: the admin assigns collection of `"d1"` to volunteer `"v1"`. -/
def demoAssignC : Except ApiError (Donation × Task) × DB :=
  assignCollectionTask demoAdmin "d1" "v1" "tm1" "t1" "m2" 2 true demoDB1

/-- The store after step 2. -/
def demoDB2 : DB := demoAssignC.2

/-- Step 3: volunteer `"v1"` completes the collection task. -/
def demoComplete1 : Except ApiError Task × DB :=
  updateTaskStatus demoVol1 "tm1" "completed" 3 true "m3" demoDB2

/-- The store after step 3. -/
def demoDB3 : DB := demoComplete1.2

/-- Step 4: the admin assigns distribution of `"d1"` to `"v1"` at center 11. -/
def demoAssignD1 : Except ApiError (Donation × Task) × DB :=
  assignDistributionTask demoAdmin "d1" "v1" "11" "tm2" "t2" "m4" 4 true demoDB3

/-- The store after step 4. -/
def demoDB4 : DB := demoAssignD1.2

/-- Step 5: volunteer `"v1"` sends `"completed"` for the collection task a
second time (nothing in the route inspects the task's current status). -/
def demoComplete2 : Except ApiError Task × DB :=
  updateTaskStatus demoVol1 "tm1" "completed" 5 true "m5" demoDB4

/-- The store after step 5. -/
def demoDB5 : DB := demoComplete2.2

/-- Step 6: the admin assigns distribution of `"d1"` again, to `"v2"`. -/
def demoAssignD2 : Except ApiError (Donation × Task) × DB :=
  assignDistributionTask demoAdmin "d1" "v2" "11" "tm3" "t3" "m6" 6 true demoDB5

/-- The store after step 6. -/
def demoDB6 : DB := demoAssignD2.2

/-- Alternative branch after step 2: volunteer `"v1"` reports an issue on the
collection task. -/
def demoReport : Except ApiError Task × DB :=
  reportIssue demoVol1 "tm1" "wrong address" demoDB2

/-- The store after the issue report. -/
def demoDBr : DB := demoReport.2

/-- A status update on the locked task attempted by the other volunteer. -/
def demoLockedUpdate : Except ApiError Task × DB :=
  updateTaskStatus demoVol2 "tm1" "enRoute" 4 true "m9" demoDBr

/-- The collection task as stored after step 2. -/
def demoTaskD2 : Task :=
  { mid := "tm1", taskId := "t1", donationId := "d1", volunteerId := "v1",
    taskType := "collection", status := "assigned",
    locationCoordinates := [76, 10], address := "1 Main St", assignedAt := 2 }

/-- The donation as stored after step 2. -/
def demoDonationD2 : Donation :=
  { donationId := "d1", donorId := "don1", donorName := "Dana",
    itemType := "Rice", quantity := "10 lbs", notes := none,
    status := "assignedForCollection", pickupCoordinates := [76, 10],
    pickupAddress := "1 Main St", availabilityTime := "2025-01-01T10:00",
    postedAt := 1 }

/-- The collection task as stored after step 3 (completed once). -/
def demoTaskD4 : Task :=
  { demoTaskD2 with status := "completed", completedAt := some 3 }

/-- The donation as stored after step 4. -/
def demoDonationD4 : Donation :=
  { demoDonationD2 with
    status := "assignedForDistribution",
    collectedAt := some 3, collectedByVolunteerId := some "v1",
    dropoffCoordinates := some [76, 10], dropoffAddress := some "12 Center St" }

/-- The collection task as stored after the issue report. -/
def demoTaskLocked : Task :=
  { demoTaskD2 with
    status := "pending_review", issueReported := true,
    issueNotes := some "wrong address" }

/-! ## Generic lemmas about the store primitives -/

theorem updateFirst_nil (p : α → Bool) (f : α → α) : updateFirst p f [] = [] := rfl

theorem updateFirst_false (f : α → α) :
    ∀ l : List α, updateFirst (fun _ => false) f l = l
  | [] => rfl
  | x :: xs => by
    rw [updateFirst, if_neg (by simp), updateFirst_false f xs]

theorem updateFirst_cons (p : α → Bool) (f : α → α) (x : α) (xs : List α) :
    updateFirst p f (x :: xs) =
      if p x then f x :: xs else x :: updateFirst p f xs := rfl

theorem countP_updateFirst (p q : α → Bool) (f : α → α)
    (h : ∀ a, q (f a) = q a) :
    ∀ l : List α, (updateFirst p f l).countP q = l.countP q
  | [] => rfl
  | x :: xs => by
    by_cases hp : p x
    · simp [updateFirst_cons, hp, List.countP_cons, h]
    · simp [updateFirst_cons, hp, List.countP_cons,
        countP_updateFirst p q f h xs]

theorem map_updateFirst (p : α → Bool) (f : α → α) (g : α → β)
    (h : ∀ a, g (f a) = g a) :
    ∀ l : List α, (updateFirst p f l).map g = l.map g
  | [] => rfl
  | x :: xs => by
    by_cases hp : p x
    · simp [updateFirst_cons, hp, h]
    · simp [updateFirst_cons, hp, map_updateFirst p f g h xs]

theorem mem_updateFirst (p : α → Bool) (f : α → α) :
    ∀ {l : List α} {x : α}, x ∈ updateFirst p f l →
      x ∈ l ∨ ∃ a ∈ l, p a = true ∧ x = f a := by
  intro l
  induction l with
  | nil => intro x hx; simp [updateFirst_nil] at hx
  | cons y ys ih =>
    intro x hx
    by_cases hp : p y
    · rw [updateFirst_cons, if_pos hp] at hx
      rcases List.mem_cons.mp hx with h | h
      · exact Or.inr ⟨y, List.mem_cons_self y ys, hp, h⟩
      · exact Or.inl (List.mem_cons_of_mem _ h)
    · rw [updateFirst_cons, if_neg hp] at hx
      rcases List.mem_cons.mp hx with h | h
      · exact Or.inl (h ▸ List.mem_cons_self y ys)
      · rcases ih h with h' | ⟨a, ha, hpa, hfa⟩
        · exact Or.inl (List.mem_cons_of_mem _ h')
        · exact Or.inr ⟨a, List.mem_cons_of_mem _ ha, hpa, hfa⟩

theorem find?_updateFirst (p : α → Bool) (f : α → α)
    (hp : ∀ b, p (f b) = p b) :
    ∀ {l : List α} {a : α}, l.find? p = some a →
      (updateFirst p f l).find? p = some (f a) := by
  intro l
  induction l with
  | nil => intro a h; simp at h
  | cons x xs ih =>
    intro a h
    by_cases hx : p x
    · rw [List.find?_cons_of_pos _ hx] at h
      rw [updateFirst_cons, if_pos hx,
        List.find?_cons_of_pos _ (by rw [hp]; exact hx)]
      exact congrArg some (congrArg f (Option.some.inj h))
    · rw [List.find?_cons_of_neg _ hx] at h
      rw [updateFirst_cons, if_neg hx, List.find?_cons_of_neg _ hx]
      exact ih h

theorem exists_split_of_find? {p : α → Bool} :
    ∀ {l : List α} {a : α}, l.find? p = some a →
      ∃ pre post, l = pre ++ a :: post ∧ ∀ x ∈ pre, p x = false := by
  intro l
  induction l with
  | nil => intro a h; simp at h
  | cons x xs ih =>
    intro a h
    by_cases hx : p x
    · rw [List.find?_cons_of_pos _ hx] at h
      exact ⟨[], xs, by rw [Option.some.inj h]; rfl, by intro y hy; simp at hy⟩
    · rw [List.find?_cons_of_neg _ hx] at h
      rcases ih h with ⟨pre, post, hl, hpre⟩
      refine ⟨x :: pre, post, by rw [hl]; rfl, ?_⟩
      intro y hy
      rcases List.mem_cons.mp hy with h' | h'
      · rw [h']; exact Bool.eq_false_iff.mpr hx
      · exact hpre y h'

theorem find?_of_split (p : α → Bool) {pre : List α} (post : List α) {t : α}
    (hpre : ∀ x ∈ pre, p x = false) (ht : p t = true) :
    (pre ++ t :: post).find? p = some t := by
  induction pre with
  | nil => rw [List.nil_append, List.find?_cons_of_pos _ ht]
  | cons x xs ih =>
    have hx : p x = false := hpre x (List.mem_cons_self x xs)
    rw [List.cons_append, List.find?_cons_of_neg _ (by simp [hx])]
    exact ih (fun y hy => hpre y (List.mem_cons_of_mem _ hy))

theorem updateFirst_of_split (p : α → Bool) (f : α → α) {pre : List α}
    (post : List α) {t : α}
    (hpre : ∀ x ∈ pre, p x = false) (ht : p t = true) :
    updateFirst p f (pre ++ t :: post) = pre ++ f t :: post := by
  induction pre with
  | nil => simp [updateFirst_cons, ht]
  | cons x xs ih =>
    have hx : p x = false := hpre x (List.mem_cons_self x xs)
    rw [List.cons_append, updateFirst_cons, if_neg (by simp [hx]),
      ih (fun y hy => hpre y (List.mem_cons_of_mem _ hy))]
    rfl

theorem find?_append_of_none (p : α → Bool) {l : List α} (l' : List α)
    (h : l.find? p = none) :
    (l ++ l').find? p = l'.find? p := by
  induction l with
  | nil => rfl
  | cons x xs ih =>
    rw [List.find?_cons] at h
    rcases hx : p x with hf | ht
    · rw [hx] at h
      rw [List.cons_append, List.find?_cons_of_neg _ (by simp [hx])]
      exact ih h
    · rw [hx] at h; simp at h

theorem exists_key_of_mem_map {g : α → String} {l : List α} {k : String}
    (h : k ∈ l.map g) : ∃ d ∈ l, g d = k := by
  rcases List.mem_map.mp h with ⟨d, hd, hk⟩
  exact ⟨d, hd, hk⟩

/-! ## Counting lemmas for collection tasks -/

theorem collectionCountIn_append (tasks : List Task) (t : Task) (did : String) :
    collectionCountIn (tasks ++ [t]) did =
      collectionCountIn tasks did +
        (if t.donationId == did && t.taskType == "collection" then 1 else 0) := by
  simp [collectionCountIn, List.countP_append, List.countP_cons]

theorem collectionCountIn_updateFirst {p : Task → Bool} {f : Task → Task}
    (h : ∀ t, (f t).donationId = t.donationId ∧ (f t).taskType = t.taskType)
    (tasks : List Task) (did : String) :
    collectionCountIn (updateFirst p f tasks) did = collectionCountIn tasks did := by
  apply countP_updateFirst
  intro a
  simp only [(h a).1, (h a).2]

theorem collectionCountIn_eq_zero {tasks : List Task} {did : String}
    (h : ∀ t ∈ tasks, t.donationId = did → t.taskType ≠ "collection") :
    collectionCountIn tasks did = 0 := by
  rw [collectionCountIn, List.countP_eq_zero]
  intro t ht
  simp only [Bool.and_eq_true, beq_iff_eq, not_and]
  exact h t ht

theorem mem_of_collectionCountIn_pos {tasks : List Task} {did : String}
    (h : collectionCountIn tasks did ≠ 0) :
    ∃ t ∈ tasks, t.donationId = did ∧ t.taskType = "collection" := by
  by_contra hc
  push_neg at hc
  exact h (collectionCountIn_eq_zero hc)

/-! ## The invariant is preserved by every operation

First at the level of the donation/task lists (one lemma per shape of
mutation), then per operation. -/

theorem goodState_append_pending {donations : List Donation} {tasks : List Task}
    (hg : GoodState donations tasks) {newD : Donation}
    (hstatus : newD.status = "pendingAssignment")
    (hfresh : ∀ d ∈ donations, d.donationId ≠ newD.donationId) :
    GoodState (donations ++ [newD]) tasks := by
  obtain ⟨hnodup, htref, hpend, hone, hstat⟩ := hg
  refine ⟨?_, ?_, ?_, hone, ?_⟩
  · rw [List.map_append]
    refine List.Nodup.append hnodup (List.nodup_singleton _) ?_
    intro a ha hb
    rcases exists_key_of_mem_map ha with ⟨d, hd, hkey⟩
    have hb' : a = newD.donationId := by simpa using hb
    exact hfresh d hd (by rw [hkey, hb'])
  · intro t ht
    rcases htref t ht with ⟨d, hd, hdid⟩
    exact ⟨d, List.mem_append_left _ hd, hdid⟩
  · intro d hd hp
    rcases List.mem_append.mp hd with hd | hd
    · exact hpend d hd hp
    · have hd' : d = newD := by simpa using hd
      subst hd'
      apply collectionCountIn_eq_zero
      intro t ht htid _
      rcases htref t ht with ⟨d', hd'', hdid⟩
      exact hfresh d' hd'' (by rw [hdid, htid])
  · intro d hd
    rcases List.mem_append.mp hd with hd | hd
    · exact hstat d hd
    · have hd' : d = newD := by simpa using hd
      subst hd'
      rw [hstatus, donationStatuses]
      simp

theorem goodState_updateTasks {donations : List Donation} {tasks : List Task}
    (hg : GoodState donations tasks) {pt : Task → Bool} {ft : Task → Task}
    (hft : ∀ t, (ft t).donationId = t.donationId ∧ (ft t).taskType = t.taskType) :
    GoodState donations (updateFirst pt ft tasks) := by
  obtain ⟨hnodup, htref, hpend, hone, hstat⟩ := hg
  refine ⟨hnodup, ?_, ?_, ?_, hstat⟩
  · intro t ht
    rcases mem_updateFirst pt ft ht with ht' | ⟨a, ha, _, hfa⟩
    · exact htref t ht'
    · rcases htref a ha with ⟨d, hd, hdid⟩
      exact ⟨d, hd, by rw [hdid, hfa, (hft a).1]⟩
  · intro d hd hp
    rw [collectionCountIn_updateFirst hft]
    exact hpend d hd hp
  · intro did
    rw [collectionCountIn_updateFirst hft]
    exact hone did

theorem goodState_update {donations : List Donation} {tasks : List Task}
    (hg : GoodState donations tasks) {pt : Task → Bool} {ft : Task → Task}
    (hft : ∀ t, (ft t).donationId = t.donationId ∧ (ft t).taskType = t.taskType)
    {pd : Donation → Bool} {fd : Donation → Donation}
    (hfd : ∀ d, (fd d).donationId = d.donationId)
    (hfdstat : ∀ d, (fd d).status ≠ "pendingAssignment" ∧
        (fd d).status ∈ donationStatuses) :
    GoodState (updateFirst pd fd donations) (updateFirst pt ft tasks) := by
  obtain ⟨hnodup, htref, hpend, hone, hstat⟩ := hg
  have hmap : (updateFirst pd fd donations).map (·.donationId) =
      donations.map (·.donationId) := map_updateFirst pd fd _ hfd donations
  refine ⟨?_, ?_, ?_, ?_, ?_⟩
  · rw [hmap]; exact hnodup
  · intro t ht
    have hdid : ∃ d ∈ donations, d.donationId = t.donationId := by
      rcases mem_updateFirst pt ft ht with ht' | ⟨a, ha, _, hfa⟩
      · exact htref t ht'
      · rcases htref a ha with ⟨d, hd, hdid⟩
        exact ⟨d, hd, by rw [hdid, hfa, (hft a).1]⟩
    rcases hdid with ⟨d, hd, hdid⟩
    apply exists_key_of_mem_map
    rw [hmap]
    exact hdid ▸ List.mem_map_of_mem _ hd
  · intro d hd hp
    rw [collectionCountIn_updateFirst hft]
    rcases mem_updateFirst pd fd hd with hd' | ⟨a, _, _, hfa⟩
    · exact hpend d hd' hp
    · exact absurd hp (by rw [hfa]; exact (hfdstat a).1)
  · intro did
    rw [collectionCountIn_updateFirst hft]
    exact hone did
  · intro d hd
    rcases mem_updateFirst pd fd hd with hd' | ⟨a, _, _, hfa⟩
    · exact hstat d hd'
    · rw [hfa]; exact (hfdstat a).2

theorem goodState_updateDonations {donations : List Donation} {tasks : List Task}
    (hg : GoodState donations tasks) {pd : Donation → Bool} {fd : Donation → Donation}
    (hfd : ∀ d, (fd d).donationId = d.donationId)
    (hfdstat : ∀ d, (fd d).status ≠ "pendingAssignment" ∧
        (fd d).status ∈ donationStatuses) :
    GoodState (updateFirst pd fd donations) tasks := by
  have h2 := @goodState_update donations tasks hg (fun _ => false) id
    (fun t => ⟨rfl, rfl⟩) pd fd hfd hfdstat
  rwa [updateFirst_false id tasks] at h2

theorem goodState_assignCollection {donations : List Donation} {tasks : List Task}
    (hg : GoodState donations tasks) {did : String} {donation : Donation}
    (hfind : donations.find?
      (fun d => d.donationId == did && d.status == "pendingAssignment") = some donation)
    {newTask : Task} (htid : newTask.donationId = did)
    (htype : newTask.taskType = "collection") :
    GoodState
      (updateFirst (fun d => d.donationId == did)
        (fun d => { d with status := "assignedForCollection" }) donations)
      (tasks ++ [newTask]) := by
  obtain ⟨hnodup, htref, hpend, hone, hstat⟩ := hg
  have hprops : donation.donationId = did ∧ donation.status = "pendingAssignment" := by
    simpa using List.find?_some hfind
  obtain ⟨hdid, hdpend⟩ := hprops
  rcases exists_split_of_find? hfind with ⟨pre, post, hsplit, _⟩
  have hmapsplit : donations.map (·.donationId) =
      pre.map (·.donationId) ++ donation.donationId :: post.map (·.donationId) := by
    rw [hsplit]; simp
  have hnodup' := hmapsplit ▸ hnodup
  have hnotpre : ∀ x ∈ pre, x.donationId ≠ did := by
    intro x hx heq
    rcases List.nodup_append.mp hnodup' with ⟨_, _, hdisj⟩
    exact hdisj (List.mem_map_of_mem _ hx)
      (by rw [heq, ← hdid]; exact List.mem_cons_self _ _)
  have hnotpost : ∀ x ∈ post, x.donationId ≠ did := by
    intro x hx heq
    rcases List.nodup_append.mp hnodup' with ⟨_, hcons, _⟩
    rcases List.nodup_cons.mp hcons with ⟨hnotin, _⟩
    apply hnotin
    rw [hdid, ← heq]
    exact List.mem_map_of_mem _ hx
  have hprefalse : ∀ x ∈ pre, (x.donationId == did) = false := by
    intro x hx
    exact beq_eq_false_iff_ne.mpr (hnotpre x hx)
  have hupdate := updateFirst_of_split (fun d => d.donationId == did)
    (fun d => { d with status := "assignedForCollection" }) post hprefalse
    (beq_iff_eq.mpr hdid)
  rw [hsplit, hupdate]
  have hcount0 : collectionCountIn tasks did = 0 := by
    rw [← hdid]
    exact hpend donation (hsplit ▸ List.mem_append_right _ (List.mem_cons_self _ _)) hdpend
  refine ⟨?_, ?_, ?_, ?_, ?_⟩
  · have hmapnew : (pre ++ ({ donation with status := "assignedForCollection" } :
        Donation) :: post).map (·.donationId) = donations.map (·.donationId) := by
      rw [hmapsplit]; simp
    rw [hmapnew]; exact hnodup
  · intro t ht
    rcases List.mem_append.mp ht with ht | ht
    · rcases htref t ht with ⟨d, hd, hdid'⟩
      rw [hsplit] at hd
      rcases List.mem_append.mp hd with hd | hd
      · exact ⟨d, List.mem_append_left _ hd, hdid'⟩
      · rcases List.mem_cons.mp hd with hd | hd
        · exact ⟨({ donation with status := "assignedForCollection" } : Donation),
            List.mem_append_right _ (List.mem_cons_self _ _), by rw [← hd]; exact hdid'⟩
        · exact ⟨d, List.mem_append_right _ (List.mem_cons_of_mem _ hd), hdid'⟩
    · have ht' : t = newTask := by simpa using ht
      subst ht'
      exact ⟨({ donation with status := "assignedForCollection" } : Donation),
        List.mem_append_right _ (List.mem_cons_self _ _), by rw [htid]; exact hdid⟩
  · intro d hd hp
    have hdonations : d ∈ donations ∧ d.donationId ≠ did := by
      rcases List.mem_append.mp hd with hd | hd
      · exact ⟨hsplit ▸ List.mem_append_left _ hd, hnotpre d hd⟩
      · rcases List.mem_cons.mp hd with hd | hd
        · subst hd
          exact absurd hp (by simp)
        · exact ⟨hsplit ▸ List.mem_append_right _ (List.mem_cons_of_mem _ hd),
            hnotpost d hd⟩
    have hnewfalse : (newTask.donationId == d.donationId) = false := by
      rw [htid]
      exact beq_eq_false_iff_ne.mpr (fun h => hdonations.2 h.symm)
    rw [collectionCountIn_append, hpend d hdonations.1 hp]
    simp [hnewfalse]
  · intro did'
    rw [collectionCountIn_append]
    by_cases hdd : did' = did
    · subst hdd
      rw [hcount0]
      split <;> simp
    · have hnewfalse : (newTask.donationId == did') = false := by
        rw [htid]
        exact beq_eq_false_iff_ne.mpr (fun h => hdd h.symm)
      simp [hnewfalse, hone did']
  · intro d hd
    rcases List.mem_append.mp hd with hd | hd
    · exact hstat d (hsplit ▸ List.mem_append_left _ hd)
    · rcases List.mem_cons.mp hd with hd | hd
      · subst hd
        rw [donationStatuses]; simp
      · exact hstat d (hsplit ▸ List.mem_append_right _ (List.mem_cons_of_mem _ hd))

theorem goodState_assignDistribution {donations : List Donation} {tasks : List Task}
    (hg : GoodState donations tasks) {did : String} {donation : Donation}
    (hfind : donations.find?
      (fun d => d.donationId == did && d.status == "collected") = some donation)
    {newTask : Task} (htid : newTask.donationId = did)
    (htype : newTask.taskType = "distribution")
    {fd : Donation → Donation}
    (hfd : ∀ d, (fd d).donationId = d.donationId)
    (hfdstat : ∀ d, (fd d).status = "assignedForDistribution") :
    GoodState (updateFirst (fun d => d.donationId == did) fd donations)
      (tasks ++ [newTask]) := by
  obtain ⟨hnodup, htref, hpend, hone, hstat⟩ := hg
  have hprops : donation.donationId = did ∧ donation.status = "collected" := by
    simpa using List.find?_some hfind
  have hmem : donation ∈ donations := List.mem_of_find?_eq_some hfind
  have hmap : (updateFirst (fun d => d.donationId == did) fd donations).map
      (·.donationId) = donations.map (·.donationId) :=
    map_updateFirst _ fd _ hfd donations
  have hcount : ∀ did', collectionCountIn (tasks ++ [newTask]) did' =
      collectionCountIn tasks did' := by
    intro did'
    rw [collectionCountIn_append]
    have htt : (newTask.taskType == "collection") = false := by simp [htype]
    simp [htt]
  refine ⟨?_, ?_, ?_, ?_, ?_⟩
  · rw [hmap]; exact hnodup
  · intro t ht
    have hexists : ∃ d ∈ donations, d.donationId = t.donationId := by
      rcases List.mem_append.mp ht with ht | ht
      · exact htref t ht
      · have ht' : t = newTask := by simpa using ht
        subst ht'
        exact ⟨donation, hmem, by rw [hprops.1, htid]⟩
    rcases hexists with ⟨d, hd, hdid'⟩
    apply exists_key_of_mem_map
    rw [hmap]
    exact hdid' ▸ List.mem_map_of_mem _ hd
  · intro d hd hp
    rw [hcount]
    rcases mem_updateFirst _ fd hd with hd' | ⟨a, _, _, hfa⟩
    · exact hpend d hd' hp
    · exact absurd hp (by rw [hfa, hfdstat a]; simp)
  · intro did'
    rw [hcount]
    exact hone did'
  · intro d hd
    rcases mem_updateFirst _ fd hd with hd' | ⟨a, _, _, hfa⟩
    · exact hstat d hd'
    · rw [hfa, hfdstat a, donationStatuses]; simp

theorem taskStatusUpdate_fields (status : String) (now : Nat) (t : Task) :
    (taskStatusUpdate status now t).donationId = t.donationId ∧
      (taskStatusUpdate status now t).taskType = t.taskType := by
  unfold taskStatusUpdate
  split
  · exact ⟨rfl, rfl⟩
  split
  · exact ⟨rfl, rfl⟩
  · exact ⟨rfl, rfl⟩

theorem goodDB_postDonation (user : Caller) (itemType quantity pickupAddress : String)
    (pickupCoordinates : Option (List ℚ)) (availabilityTime : String)
    (notes : Option String) (docId mId : String) (now : Nat) (metricsOk : Bool)
    {db : DB} (h : GoodDB db) :
    GoodDB (postDonation user itemType quantity pickupAddress pickupCoordinates
      availabilityTime notes docId mId now metricsOk db).2 := by
  unfold postDonation
  split
  · exact h
  split
  · exact h
  split
  · exact h
  split
  · exact h
  rename_i hdup
  refine goodState_append_pending h rfl ?_
  intro d hd heq
  exact hdup (List.any_eq_true.mpr ⟨d, hd, by simpa using heq⟩)

theorem goodDB_assignCollectionTask (user : Caller)
    (donationId volunteerId taskMid taskId mId : String) (now : Nat)
    (metricsOk : Bool) {db : DB} (h : GoodDB db) :
    GoodDB (assignCollectionTask user donationId volunteerId taskMid taskId mId
      now metricsOk db).2 := by
  unfold assignCollectionTask
  split
  · exact h
  split
  · exact h
  split
  · exact h
  rename_i donation hfind
  split
  · exact h
  exact goodState_assignCollection h hfind rfl rfl

theorem goodDB_assignDistributionTask (user : Caller)
    (donationId volunteerId locationId taskMid taskId mId : String) (now : Nat)
    (metricsOk : Bool) {db : DB} (h : GoodDB db) :
    GoodDB (assignDistributionTask user donationId volunteerId locationId taskMid
      taskId mId now metricsOk db).2 := by
  unfold assignDistributionTask
  split
  · exact h
  split
  · exact h
  split
  · exact h
  rename_i org horg
  split
  · exact h
  rename_i donation hfind
  split
  · exact h
  exact goodState_assignDistribution h hfind rfl rfl (fun d => rfl) (fun d => rfl)

theorem goodDB_updateTaskStatus (user : Caller) (taskId status : String)
    (now : Nat) (metricsOk : Bool) (mId : String) {db : DB} (h : GoodDB db) :
    GoodDB (updateTaskStatus user taskId status now metricsOk mId db).2 := by
  unfold updateTaskStatus
  split
  · exact h
  split
  · exact h
  split
  · exact h
  rename_i task hfind
  split
  · exact h
  split
  · exact h
  unfold GoodDB
  dsimp only
  split
  · exact goodState_updateTasks h (taskStatusUpdate_fields status now)
  split
  · exact goodState_update h (taskStatusUpdate_fields status now)
      (fun d => rfl) (fun d => by constructor <;> simp [donationStatuses])
  split
  · exact goodState_update h (taskStatusUpdate_fields status now)
      (fun d => rfl) (fun d => by constructor <;> simp [donationStatuses])
  · exact goodState_updateTasks h (taskStatusUpdate_fields status now)

theorem goodDB_reportIssue (user : Caller) (taskId issueNotes : String)
    {db : DB} (h : GoodDB db) :
    GoodDB (reportIssue user taskId issueNotes db).2 := by
  unfold reportIssue
  split
  · exact h
  split
  · exact h
  split
  · exact h
  exact goodState_updateTasks h (fun t => ⟨rfl, rfl⟩)

theorem goodDB_reassignTask (user : Caller) (taskId newVolunteerId : String)
    (now : Nat) {db : DB} (h : GoodDB db) :
    GoodDB (reassignTask user taskId newVolunteerId now db).2 := by
  unfold reassignTask
  split
  · exact h
  split
  · exact h
  split
  · exact h
  exact goodState_updateTasks h (fun t => ⟨rfl, rfl⟩)

theorem goodDB_init (orgs : List Organization) : GoodDB (initDB orgs) := by
  refine ⟨?_, ?_, ?_, ?_, ?_⟩ <;> simp [initDB, collectionCountIn]

theorem goodDB_of_reachable {db : DB} (h : Reachable db) : GoodDB db := by
  rcases h with ⟨orgs, h⟩
  induction h with
  | refl => exact goodDB_init orgs
  | tail hsteps hstep ih =>
    cases hstep with
    | post user itemType quantity pickupAddress pickupCoordinates availabilityTime
        notes docId mId now metricsOk db =>
      exact goodDB_postDonation user itemType quantity pickupAddress
        pickupCoordinates availabilityTime notes docId mId now metricsOk ih
    | assignCollection user donationId volunteerId taskMid taskId mId now metricsOk db =>
      exact goodDB_assignCollectionTask user donationId volunteerId taskMid taskId
        mId now metricsOk ih
    | assignDistribution user donationId volunteerId locationId taskMid taskId mId
        now metricsOk db =>
      exact goodDB_assignDistributionTask user donationId volunteerId locationId
        taskMid taskId mId now metricsOk ih
    | updateStatus user taskId status now metricsOk mId db =>
      exact goodDB_updateTaskStatus user taskId status now metricsOk mId ih
    | report user taskId issueNotes db =>
      exact goodDB_reportIssue user taskId issueNotes ih
    | reassign user taskId newVolunteerId now db =>
      exact goodDB_reassignTask user taskId newVolunteerId now ih

/-! ## Exact-shape lemmas for the interesting success paths -/

theorem taskStatusUpdate_mid (status : String) (now : Nat) (t : Task) :
    (taskStatusUpdate status now t).mid = t.mid := by
  unfold taskStatusUpdate
  split
  · rfl
  split
  · rfl
  · rfl

theorem completeBump_userId (m : Metrics) (taskType : String) (cur : Metrics) :
    (completeBump m taskType cur).userId = cur.userId := by
  unfold completeBump
  dsimp only
  split
  · split
    · rfl
    · rfl
  · split
    · rfl
    · rfl

theorem completeBump_tasksCompleted (m : Metrics) (taskType : String) (cur : Metrics) :
    (completeBump m taskType cur).tasksCompleted = m.tasksCompleted + 1 := by
  unfold completeBump
  dsimp only
  split
  · split
    · rfl
    · rfl
  · split
    · rfl
    · rfl

theorem completeBump_donationsCollected (m : Metrics) (taskType : String) (cur : Metrics) :
    (completeBump m taskType cur).donationsCollected =
      if taskType == "collection" then m.donationsCollected + 1
      else cur.donationsCollected := by
  unfold completeBump
  dsimp only
  split
  · split
    · rfl
    · rfl
  · split
    · rfl
    · rfl

theorem completeBump_donationsDelivered (m : Metrics) (taskType : String) (cur : Metrics) :
    (completeBump m taskType cur).donationsDelivered =
      if taskType == "distribution" then m.donationsDelivered + 1
      else cur.donationsDelivered := by
  unfold completeBump
  dsimp only
  split
  · split
    · rfl
    · rfl
  · split
    · rfl
    · rfl

/-- Shape of the whole `updateTaskStatus` result on its success path. -/
theorem updateTaskStatus_success (user : Caller) (tmid status : String) (now : Nat)
    (metricsOk : Bool) (mId : String) {db : DB} {t : Task}
    (hrole : user.role = "Volunteer")
    (hvalid : status = "enRoute" ∨ status = "completed" ∨ status = "cancelled" ∨
      status = "failed")
    (hfind : db.tasks.find? (fun x => x.mid == tmid) = some t)
    (hown : t.volunteerId = user.uid)
    (hissue : t.issueReported = false)
    (hst : t.status ≠ "pending_review") :
    updateTaskStatus user tmid status now metricsOk mId db =
      (.ok (taskStatusUpdate status now t),
       { db with
         tasks := updateFirst (fun x => x.mid == tmid)
           (taskStatusUpdate status now) db.tasks,
         donations :=
           match db.donations.find? (fun d => d.donationId == t.donationId) with
           | none => db.donations
           | some _ =>
             if t.taskType = "collection" ∧ status = "completed" then
               updateFirst (fun d => d.donationId == t.donationId)
                 (fun d => { d with status := "collected", collectedAt := some now,
                                    collectedByVolunteerId := some user.uid })
                 db.donations
             else if t.taskType = "distribution" ∧ status = "completed" then
               updateFirst (fun d => d.donationId == t.donationId)
                 (fun d => { d with status := "delivered", deliveredAt := some now,
                                    distributionVolunteerId := some user.uid })
                 db.donations
             else db.donations,
         metrics :=
           if status = "completed" ∧ metricsOk then
             completeTaskMetrics user.uid mId t.taskType now db.metrics
           else db.metrics }) := by
  unfold updateTaskStatus
  rw [if_neg (fun h => h hrole)]
  rw [if_neg (not_not_intro hvalid)]
  rw [hfind]
  dsimp only
  rw [if_neg (fun h => h hown)]
  rw [if_neg (fun h => h.elim (fun hh => by rw [hissue] at hh; exact Bool.noConfusion hh) hst)]
  have hupd : (updateFirst (fun x => x.mid == tmid) (taskStatusUpdate status now)
      db.tasks).find? (fun x => x.mid == tmid) =
        some (taskStatusUpdate status now t) :=
    find?_updateFirst _ _ (fun b => by rw [taskStatusUpdate_mid]) hfind
  rw [hupd]
  rfl

/-- Effect of `completeTaskMetrics` on the record `getMetricsByUserId` sees. -/
theorem metricsFor_completeTaskMetrics (uid mId taskType : String) (now : Nat)
    (l : List Metrics) :
    (completeTaskMetrics uid mId taskType now l).find? (fun m => m.userId == uid) =
      match l.find? (fun m => m.userId == uid) with
      | none => some { metricsId := mId, userId := uid, userType := "Volunteer",
                       tasksCompleted := 1,
                       donationsCollected := if taskType == "collection" then 1 else 0,
                       donationsDelivered := if taskType == "distribution" then 1 else 0,
                       createdAt := now, updatedAt := now }
      | some m => some { completeBump m taskType m with updatedAt := now } := by
  unfold completeTaskMetrics
  cases hfind : l.find? (fun m => m.userId == uid) with
  | none =>
    rw [find?_append_of_none _ _ hfind, List.find?_cons_of_pos _ (by simp)]
  | some m =>
    unfold updateMetricsByUserId
    exact find?_updateFirst _ _ (fun b => by rw [show
      ({ completeBump m taskType b with updatedAt := now } : Metrics).userId =
        (completeBump m taskType b).userId from rfl, completeBump_userId]) hfind

/-- Effect of `assignTaskMetrics` on the record `getMetricsByUserId` sees. -/
theorem metricsFor_assignTaskMetrics (uid mId : String) (now : Nat)
    (l : List Metrics) :
    (assignTaskMetrics uid mId now l).find? (fun m => m.userId == uid) =
      match l.find? (fun m => m.userId == uid) with
      | none => some { metricsId := mId, userId := uid, userType := "Volunteer",
                       tasksAssigned := 1, createdAt := now, updatedAt := now }
      | some m => some { m with tasksAssigned := m.tasksAssigned + 1,
                                updatedAt := now } := by
  unfold assignTaskMetrics
  cases hfind : l.find? (fun m => m.userId == uid) with
  | none =>
    rw [find?_append_of_none _ _ hfind, List.find?_cons_of_pos _ (by simp)]
  | some m =>
    unfold updateMetricsByUserId
    have h := find?_updateFirst (fun x : Metrics => x.userId == uid)
      (fun cur => { cur with tasksAssigned := m.tasksAssigned + 1, updatedAt := now })
      (fun b => rfl) hfind
    rw [h]

/-- Effect of `postDonationMetrics` on the record `getMetricsByUserId` sees. -/
theorem metricsFor_postDonationMetrics (uid mId : String) (qty now : Nat)
    (l : List Metrics) :
    (postDonationMetrics uid mId qty now l).find? (fun m => m.userId == uid) =
      match l.find? (fun m => m.userId == uid) with
      | none => some { metricsId := mId, userId := uid, userType := "Donor",
                       totalDonationsPosted := 1, foodItemsCollected := qty,
                       createdAt := now, updatedAt := now }
      | some m => some { m with totalDonationsPosted := m.totalDonationsPosted + 1,
                                foodItemsCollected := m.foodItemsCollected + qty,
                                updatedAt := now } := by
  unfold postDonationMetrics
  cases hfind : l.find? (fun m => m.userId == uid) with
  | none =>
    rw [find?_append_of_none _ _ hfind, List.find?_cons_of_pos _ (by simp)]
  | some m =>
    unfold updateMetricsByUserId
    have h := find?_updateFirst (fun x : Metrics => x.userId == uid)
      (fun cur => { cur with totalDonationsPosted := m.totalDonationsPosted + 1,
                             foodItemsCollected := m.foodItemsCollected + qty,
                             updatedAt := now })
      (fun b => rfl) hfind
    rw [h]

/-- Completing a collection task: exact effect on the returned task, the
linked donation, and the volunteer's counters. -/
theorem completedCollectionEffects (user : Caller) (tmid : String) (now : Nat)
    (mId : String) {db : DB} {t : Task} {d : Donation}
    (hrole : user.role = "Volunteer")
    (hfind : db.tasks.find? (fun x => x.mid == tmid) = some t)
    (hown : t.volunteerId = user.uid)
    (hissue : t.issueReported = false)
    (hst : t.status ≠ "pending_review")
    (htype : t.taskType = "collection")
    (hdon : db.donations.find? (fun x => x.donationId == t.donationId) = some d) :
    (updateTaskStatus user tmid "completed" now true mId db).1 =
        .ok { t with status := "completed", completedAt := some now } ∧
    ((updateTaskStatus user tmid "completed" now true mId db).2.donations.find?
        (fun x => x.donationId == t.donationId)) =
      some { d with status := "collected", collectedAt := some now,
                    collectedByVolunteerId := some user.uid } ∧
    tasksCompletedOf (updateTaskStatus user tmid "completed" now true mId db).2
        user.uid = tasksCompletedOf db user.uid + 1 ∧
    donationsCollectedOf (updateTaskStatus user tmid "completed" now true mId db).2
        user.uid = donationsCollectedOf db user.uid + 1 := by
  rw [updateTaskStatus_success user tmid "completed" now true mId hrole
    (Or.inr (Or.inl rfl)) hfind hown hissue hst]
  refine ⟨rfl, ?_, ?_, ?_⟩
  · dsimp only
    rw [hdon]
    dsimp only
    rw [if_pos ⟨htype, rfl⟩]
    exact find?_updateFirst (fun x : Donation => x.donationId == t.donationId)
      (fun x : Donation => { x with status := "collected", collectedAt := some now,
                                    collectedByVolunteerId := some user.uid })
      (fun b => rfl) hdon
  · unfold tasksCompletedOf metricsFor
    dsimp only
    rw [if_pos ⟨rfl, rfl⟩, metricsFor_completeTaskMetrics]
    cases hm : db.metrics.find? (fun m => m.userId == user.uid) with
    | none => simp
    | some m => simp [completeBump_tasksCompleted]
  · unfold donationsCollectedOf metricsFor
    dsimp only
    rw [if_pos ⟨rfl, rfl⟩, metricsFor_completeTaskMetrics]
    cases hm : db.metrics.find? (fun m => m.userId == user.uid) with
    | none => simp [htype]
    | some m => simp [completeBump_donationsCollected, htype]

/-- Completing a distribution task: exact effect on the returned task, the
linked donation, and the volunteer's counters. -/
theorem completedDistributionEffects (user : Caller) (tmid : String) (now : Nat)
    (mId : String) {db : DB} {t : Task} {d : Donation}
    (hrole : user.role = "Volunteer")
    (hfind : db.tasks.find? (fun x => x.mid == tmid) = some t)
    (hown : t.volunteerId = user.uid)
    (hissue : t.issueReported = false)
    (hst : t.status ≠ "pending_review")
    (htype : t.taskType = "distribution")
    (hdon : db.donations.find? (fun x => x.donationId == t.donationId) = some d) :
    (updateTaskStatus user tmid "completed" now true mId db).1 =
        .ok { t with status := "completed", completedAt := some now } ∧
    ((updateTaskStatus user tmid "completed" now true mId db).2.donations.find?
        (fun x => x.donationId == t.donationId)) =
      some { d with status := "delivered", deliveredAt := some now,
                    distributionVolunteerId := some user.uid } ∧
    tasksCompletedOf (updateTaskStatus user tmid "completed" now true mId db).2
        user.uid = tasksCompletedOf db user.uid + 1 ∧
    donationsDeliveredOf (updateTaskStatus user tmid "completed" now true mId db).2
        user.uid = donationsDeliveredOf db user.uid + 1 := by
  rw [updateTaskStatus_success user tmid "completed" now true mId hrole
    (Or.inr (Or.inl rfl)) hfind hown hissue hst]
  have hnc : ¬(t.taskType = "collection" ∧ "completed" = "completed") := by
    intro h
    rw [htype] at h
    exact absurd h.1 (by decide)
  refine ⟨rfl, ?_, ?_, ?_⟩
  · dsimp only
    rw [hdon]
    dsimp only
    rw [if_neg hnc, if_pos ⟨htype, rfl⟩]
    exact find?_updateFirst (fun x : Donation => x.donationId == t.donationId)
      (fun x : Donation => { x with status := "delivered", deliveredAt := some now,
                                    distributionVolunteerId := some user.uid })
      (fun b => rfl) hdon
  · unfold tasksCompletedOf metricsFor
    dsimp only
    rw [if_pos ⟨rfl, rfl⟩, metricsFor_completeTaskMetrics]
    cases hm : db.metrics.find? (fun m => m.userId == user.uid) with
    | none => simp
    | some m => simp [completeBump_tasksCompleted]
  · unfold donationsDeliveredOf metricsFor
    dsimp only
    rw [if_pos ⟨rfl, rfl⟩, metricsFor_completeTaskMetrics]
    cases hm : db.metrics.find? (fun m => m.userId == user.uid) with
    | none => simp [htype]
    | some m => simp [completeBump_donationsDelivered, htype]

/-- Status `"enRoute"`: stamps `startedAt`, touches neither donations nor metrics. -/
theorem enRouteEffects (user : Caller) (tmid : String) (now : Nat)
    (metricsOk : Bool) (mId : String) {db : DB} {t : Task}
    (hrole : user.role = "Volunteer")
    (hfind : db.tasks.find? (fun x => x.mid == tmid) = some t)
    (hown : t.volunteerId = user.uid)
    (hissue : t.issueReported = false)
    (hst : t.status ≠ "pending_review") :
    (updateTaskStatus user tmid "enRoute" now metricsOk mId db).1 =
        .ok { t with status := "enRoute", startedAt := some now } ∧
    (updateTaskStatus user tmid "enRoute" now metricsOk mId db).2.donations =
        db.donations ∧
    (updateTaskStatus user tmid "enRoute" now metricsOk mId db).2.metrics =
        db.metrics := by
  rw [updateTaskStatus_success user tmid "enRoute" now metricsOk mId hrole
    (Or.inl rfl) hfind hown hissue hst]
  refine ⟨rfl, ?_, ?_⟩
  · dsimp only
    cases hdon : db.donations.find? (fun x => x.donationId == t.donationId) with
    | none => rfl
    | some d =>
      dsimp only
      rw [if_neg (fun h => absurd h.2 (by decide)),
        if_neg (fun h => absurd h.2 (by decide))]
  · dsimp only
    rw [if_neg (fun h => absurd h.1 (by decide))]

/-- In a store with unique donation ids, after the status advance of an
assignment, every donation carrying the assigned id is the advanced one. -/
theorem updateFirst_key_unique {l : List Donation}
    (hnodup : (l.map (·.donationId)).Nodup)
    {did : String} {q : Donation → Bool} {donation : Donation}
    (hfind : l.find? (fun d => d.donationId == did && q d) = some donation)
    (f : Donation → Donation) :
    ∀ x ∈ updateFirst (fun d => d.donationId == did) f l,
      x.donationId = did → x = f donation := by
  have hdid : donation.donationId = did := by
    have := List.find?_some hfind
    simp only [Bool.and_eq_true, beq_iff_eq] at this
    exact this.1
  rcases exists_split_of_find? hfind with ⟨pre, post, hsplit, _⟩
  have hmapsplit : l.map (·.donationId) =
      pre.map (·.donationId) ++ donation.donationId :: post.map (·.donationId) := by
    rw [hsplit]; simp
  have hnodup' := hmapsplit ▸ hnodup
  have hnotpre : ∀ x ∈ pre, x.donationId ≠ did := by
    intro x hx heq
    rcases List.nodup_append.mp hnodup' with ⟨_, _, hdisj⟩
    exact hdisj (List.mem_map_of_mem _ hx)
      (by rw [heq, ← hdid]; exact List.mem_cons_self _ _)
  have hnotpost : ∀ x ∈ post, x.donationId ≠ did := by
    intro x hx heq
    rcases List.nodup_append.mp hnodup' with ⟨_, hcons, _⟩
    rcases List.nodup_cons.mp hcons with ⟨hnotin, _⟩
    apply hnotin
    rw [hdid, ← heq]
    exact List.mem_map_of_mem _ hx
  have hprefalse : ∀ x ∈ pre, (x.donationId == did) = false := by
    intro x hx
    exact beq_eq_false_iff_ne.mpr (hnotpre x hx)
  rw [hsplit, updateFirst_of_split _ f post hprefalse (beq_iff_eq.mpr hdid)]
  intro x hx hxdid
  rcases List.mem_append.mp hx with hx | hx
  · exact absurd hxdid (hnotpre x hx)
  · rcases List.mem_cons.mp hx with hx | hx
    · exact hx
    · exact absurd hxdid (hnotpost x hx)

/-- After a successful collection assignment no donation with that id is still
`"pendingAssignment"`, so the guard of a second assignment cannot find one. -/
theorem no_pending_after_assign {donations : List Donation} {did : String}
    {donation : Donation}
    (hnodup : (donations.map (·.donationId)).Nodup)
    (hfind : donations.find?
      (fun d => d.donationId == did && d.status == "pendingAssignment") =
        some donation) :
    (updateFirst (fun d => d.donationId == did)
        (fun d => { d with status := "assignedForCollection" })
        donations).find?
      (fun d => d.donationId == did && d.status == "pendingAssignment") = none := by
  rw [List.find?_eq_none]
  intro x hx hpx
  simp only [Bool.and_eq_true, beq_iff_eq] at hpx
  have hxval := updateFirst_key_unique hnodup hfind
    (fun d => { d with status := "assignedForCollection" }) x hx hpx.1
  rw [hxval] at hpx
  exact absurd hpx.2 (by simp)

/-- Every run of `assignCollectionTask` either fails without touching the
store, or the guard found a `"pendingAssignment"` donation and the donation
collection was advanced by the id-filtered `findOneAndUpdate`. -/
theorem assignCollectionTask_cases (user : Caller)
    (donationId volunteerId taskMid taskId mId : String) (now : Nat)
    (metricsOk : Bool) (db : DB) :
    ((assignCollectionTask user donationId volunteerId taskMid taskId mId now
        metricsOk db).1.isOk = false ∧
      (assignCollectionTask user donationId volunteerId taskMid taskId mId now
        metricsOk db).2 = db) ∨
    (∃ donation, db.donations.find?
        (fun d => d.donationId == donationId && d.status == "pendingAssignment") =
          some donation ∧
      (assignCollectionTask user donationId volunteerId taskMid taskId mId now
          metricsOk db).2.donations =
        updateFirst (fun d => d.donationId == donationId)
          (fun d => { d with status := "assignedForCollection" }) db.donations) := by
  unfold assignCollectionTask
  split
  · exact Or.inl ⟨rfl, rfl⟩
  split
  · exact Or.inl ⟨rfl, rfl⟩
  split
  · exact Or.inl ⟨rfl, rfl⟩
  rename_i donation hfind
  split
  · exact Or.inl ⟨rfl, rfl⟩
  · exact Or.inr ⟨donation, hfind, rfl⟩

/-! ## Reachability of the demo stores -/

theorem reachable_demoDB1 : Reachable demoDB1 :=
  ⟨[demoOrg], Relation.ReflTransGen.tail Relation.ReflTransGen.refl
    (Step.post demoDonor "Rice" "10 lbs" "1 Main St" (some [76, 10])
      "2025-01-01T10:00" none "d1" "m1" 1 true demoDB0)⟩

theorem reachable_demoDB2 : Reachable demoDB2 :=
  ⟨[demoOrg], Relation.ReflTransGen.tail
    (Relation.ReflTransGen.tail Relation.ReflTransGen.refl
      (Step.post demoDonor "Rice" "10 lbs" "1 Main St" (some [76, 10])
        "2025-01-01T10:00" none "d1" "m1" 1 true demoDB0))
    (Step.assignCollection demoAdmin "d1" "v1" "tm1" "t1" "m2" 2 true demoDB1)⟩

theorem reachable_demoDB4 : Reachable demoDB4 :=
  ⟨[demoOrg], Relation.ReflTransGen.tail (Relation.ReflTransGen.tail
    (Relation.ReflTransGen.tail
      (Relation.ReflTransGen.tail Relation.ReflTransGen.refl
        (Step.post demoDonor "Rice" "10 lbs" "1 Main St" (some [76, 10])
          "2025-01-01T10:00" none "d1" "m1" 1 true demoDB0))
      (Step.assignCollection demoAdmin "d1" "v1" "tm1" "t1" "m2" 2 true demoDB1))
    (Step.updateStatus demoVol1 "tm1" "completed" 3 true "m3" demoDB2))
    (Step.assignDistribution demoAdmin "d1" "v1" "11" "tm2" "t2" "m4" 4 true demoDB3)⟩

theorem reachable_demoDB6 : Reachable demoDB6 :=
  ⟨[demoOrg], Relation.ReflTransGen.tail (Relation.ReflTransGen.tail
    (Relation.ReflTransGen.tail (Relation.ReflTransGen.tail
      (Relation.ReflTransGen.tail
        (Relation.ReflTransGen.tail Relation.ReflTransGen.refl
          (Step.post demoDonor "Rice" "10 lbs" "1 Main St" (some [76, 10])
            "2025-01-01T10:00" none "d1" "m1" 1 true demoDB0))
        (Step.assignCollection demoAdmin "d1" "v1" "tm1" "t1" "m2" 2 true demoDB1))
      (Step.updateStatus demoVol1 "tm1" "completed" 3 true "m3" demoDB2))
      (Step.assignDistribution demoAdmin "d1" "v1" "11" "tm2" "t2" "m4" 4 true demoDB3))
    (Step.updateStatus demoVol1 "tm1" "completed" 5 true "m5" demoDB4))
    (Step.assignDistribution demoAdmin "d1" "v2" "11" "tm3" "t3" "m6" 6 true demoDB5)⟩

/-! ## The claims -/

/-- C9: the ranking branch of `getVolunteers` pairs every volunteer with the
haversine great-circle distance (Earth radius 6371 km, `calculateDistance`)
from their home coordinate to the pickup point — `⊤` (JS `Infinity`) when they
have none — and returns exactly those pairs sorted in non-decreasing distance
order; consequently every volunteer lacking a home coordinate is placed after
all volunteers that have one. -/
theorem proximity_ranking_sorted (volunteers : List VolunteerInfo)
    (pickupCoords : ℝ × ℝ) :
    List.Perm (getVolunteersRanked volunteers pickupCoords)
      (volunteers.map (fun v => (v, distanceKm pickupCoords v))) ∧
    (getVolunteersRanked volunteers pickupCoords).Pairwise (fun a b => a.2 ≤ b.2) ∧
    (getVolunteersRanked volunteers pickupCoords).Pairwise
      (fun a b => a.1.homeLocation = none → b.1.homeLocation = none) := by
  have hperm : List.Perm (getVolunteersRanked volunteers pickupCoords)
      (volunteers.map (fun v => (v, distanceKm pickupCoords v))) :=
    List.mergeSort_perm _ _
  have hsorted : (getVolunteersRanked volunteers pickupCoords).Pairwise
      (fun a b => a.2 ≤ b.2) := by
    have h := @List.sorted_mergeSort (VolunteerInfo × WithTop ℝ)
      (fun a b => decide (a.2 ≤ b.2)) ?_ ?_
      (volunteers.map (fun v => (v, distanceKm pickupCoords v)))
    · exact h.imp (fun hab => of_decide_eq_true hab)
    · intro a b c hab hbc
      simp only [decide_eq_true_eq] at *
      exact le_trans hab hbc
    · intro a b
      simp only [Bool.or_eq_true, decide_eq_true_eq]
      exact le_total a.2 b.2
  have hkey : ∀ x ∈ getVolunteersRanked volunteers pickupCoords,
      x.2 = distanceKm pickupCoords x.1 := by
    intro x hx
    rcases List.mem_map.mp (hperm.mem_iff.mp hx) with ⟨v, _, hxv⟩
    rw [← hxv]
  refine ⟨hperm, hsorted, hsorted.imp_of_mem ?_⟩
  intro a b ha hb hab hnone
  have ha2 : a.2 = ⊤ := by
    rw [hkey a ha]
    simp [distanceKm, hnone]
  have hb2 : b.2 = ⊤ := top_le_iff.mp (ha2 ▸ hab)
  rw [hkey b hb] at hb2
  cases hbl : b.1.homeLocation with
  | none => rfl
  | some c => exact absurd hb2 (by simp [distanceKm, hbl])

/-- C8: a metrics-store failure inside any of the four lifecycle operations is
swallowed by the surrounding try/catch: the operation's response is the same as
in a run whose metrics write succeeds, the donation and task writes are
identical, and the metrics collection is simply left as it was. -/
theorem metrics_failures_swallowed :
    (∀ (user : Caller) (itemType quantity pickupAddress : String)
       (pickupCoordinates : Option (List ℚ)) (availabilityTime : String)
       (notes : Option String) (docId mId : String) (now : Nat) (db : DB),
       (postDonation user itemType quantity pickupAddress pickupCoordinates
          availabilityTime notes docId mId now false db).1 =
         (postDonation user itemType quantity pickupAddress pickupCoordinates
          availabilityTime notes docId mId now true db).1 ∧
       (postDonation user itemType quantity pickupAddress pickupCoordinates
          availabilityTime notes docId mId now false db).2.donations =
         (postDonation user itemType quantity pickupAddress pickupCoordinates
          availabilityTime notes docId mId now true db).2.donations ∧
       (postDonation user itemType quantity pickupAddress pickupCoordinates
          availabilityTime notes docId mId now false db).2.tasks =
         (postDonation user itemType quantity pickupAddress pickupCoordinates
          availabilityTime notes docId mId now true db).2.tasks ∧
       (postDonation user itemType quantity pickupAddress pickupCoordinates
          availabilityTime notes docId mId now false db).2.metrics = db.metrics) ∧
    (∀ (user : Caller) (donationId volunteerId taskMid taskId mId : String)
       (now : Nat) (db : DB),
       (assignCollectionTask user donationId volunteerId taskMid taskId mId now
          false db).1 =
         (assignCollectionTask user donationId volunteerId taskMid taskId mId now
          true db).1 ∧
       (assignCollectionTask user donationId volunteerId taskMid taskId mId now
          false db).2.donations =
         (assignCollectionTask user donationId volunteerId taskMid taskId mId now
          true db).2.donations ∧
       (assignCollectionTask user donationId volunteerId taskMid taskId mId now
          false db).2.tasks =
         (assignCollectionTask user donationId volunteerId taskMid taskId mId now
          true db).2.tasks ∧
       (assignCollectionTask user donationId volunteerId taskMid taskId mId now
          false db).2.metrics = db.metrics) ∧
    (∀ (user : Caller) (donationId volunteerId locationId taskMid taskId mId : String)
       (now : Nat) (db : DB),
       (assignDistributionTask user donationId volunteerId locationId taskMid
          taskId mId now false db).1 =
         (assignDistributionTask user donationId volunteerId locationId taskMid
          taskId mId now true db).1 ∧
       (assignDistributionTask user donationId volunteerId locationId taskMid
          taskId mId now false db).2.donations =
         (assignDistributionTask user donationId volunteerId locationId taskMid
          taskId mId now true db).2.donations ∧
       (assignDistributionTask user donationId volunteerId locationId taskMid
          taskId mId now false db).2.tasks =
         (assignDistributionTask user donationId volunteerId locationId taskMid
          taskId mId now true db).2.tasks ∧
       (assignDistributionTask user donationId volunteerId locationId taskMid
          taskId mId now false db).2.metrics = db.metrics) ∧
    (∀ (user : Caller) (taskId status : String) (now : Nat) (mId : String) (db : DB),
       (updateTaskStatus user taskId status now false mId db).1 =
         (updateTaskStatus user taskId status now true mId db).1 ∧
       (updateTaskStatus user taskId status now false mId db).2.donations =
         (updateTaskStatus user taskId status now true mId db).2.donations ∧
       (updateTaskStatus user taskId status now false mId db).2.tasks =
         (updateTaskStatus user taskId status now true mId db).2.tasks ∧
       (updateTaskStatus user taskId status now false mId db).2.metrics =
         db.metrics) := by
  refine ⟨?_, ?_, ?_, ?_⟩
  · intro user itemType quantity pickupAddress pickupCoordinates availabilityTime
      notes docId mId now db
    unfold postDonation
    split
    · exact ⟨rfl, rfl, rfl, rfl⟩
    split
    · exact ⟨rfl, rfl, rfl, rfl⟩
    split
    · exact ⟨rfl, rfl, rfl, rfl⟩
    split
    · exact ⟨rfl, rfl, rfl, rfl⟩
    · exact ⟨rfl, rfl, rfl, rfl⟩
  · intro user donationId volunteerId taskMid taskId mId now db
    unfold assignCollectionTask
    split
    · exact ⟨rfl, rfl, rfl, rfl⟩
    split
    · exact ⟨rfl, rfl, rfl, rfl⟩
    split
    · exact ⟨rfl, rfl, rfl, rfl⟩
    split
    · exact ⟨rfl, rfl, rfl, rfl⟩
    · exact ⟨rfl, rfl, rfl, rfl⟩
  · intro user donationId volunteerId locationId taskMid taskId mId now db
    unfold assignDistributionTask
    split
    · exact ⟨rfl, rfl, rfl, rfl⟩
    split
    · exact ⟨rfl, rfl, rfl, rfl⟩
    split
    · exact ⟨rfl, rfl, rfl, rfl⟩
    split
    · exact ⟨rfl, rfl, rfl, rfl⟩
    split
    · exact ⟨rfl, rfl, rfl, rfl⟩
    · exact ⟨rfl, rfl, rfl, rfl⟩
  · intro user taskId status now mId db
    unfold updateTaskStatus
    split
    · exact ⟨rfl, rfl, rfl, rfl⟩
    split
    · exact ⟨rfl, rfl, rfl, rfl⟩
    split
    · exact ⟨rfl, rfl, rfl, rfl⟩
    split
    · exact ⟨rfl, rfl, rfl, rfl⟩
    split
    · exact ⟨rfl, rfl, rfl, rfl⟩
    · refine ⟨rfl, rfl, rfl, ?_⟩
      dsimp only
      exact if_neg (fun h => Bool.noConfusion h.2)

/-- C3: with an authorized caller and well-formed arguments,
`assignCollectionTask` on a donation that is not `"pendingAssignment"` and
`assignDistributionTask` on a donation that is not `"collected"` (with a valid
drop-off organization) each fail with their `PreconditionFailed` response and
leave the store exactly as it was — no task, donation or metrics write. -/
theorem assign_guards_precondition_failed (user : Caller)
    (did vid locId tm tid mId : String) (now : Nat) (mok : Bool)
    (db : DB) (org : Organization) :
    (user.role = "Admin" → vid ≠ "" →
      (∀ d ∈ db.donations, d.donationId = did → d.status ≠ "pendingAssignment") →
      assignCollectionTask user did vid tm tid mId now mok db =
        (.error preconditionFailedCollection, db)) ∧
    (user.role = "Admin" → vid ≠ "" → locId ≠ "" →
      db.orgs.find? (fun o => o.organizationId == locId) = some org →
      (∀ d ∈ db.donations, d.donationId = did → d.status ≠ "collected") →
      assignDistributionTask user did vid locId tm tid mId now mok db =
        (.error preconditionFailedDistribution, db)) := by
  constructor
  · intro hrole hvid hstat
    unfold assignCollectionTask
    rw [if_neg (fun h => h hrole), if_neg hvid]
    have hnone : db.donations.find?
        (fun d => d.donationId == did && d.status == "pendingAssignment") = none := by
      rw [List.find?_eq_none]
      intro d hd hpd
      simp only [Bool.and_eq_true, beq_iff_eq] at hpd
      exact hstat d hd hpd.1 hpd.2
    rw [hnone]
    rfl
  · intro hrole hvid hloc horg hstat
    unfold assignDistributionTask
    rw [if_neg (fun h => h hrole), if_neg (fun h => h.elim hvid hloc), horg]
    dsimp only
    have hnone : db.donations.find?
        (fun d => d.donationId == did && d.status == "collected") = none := by
      rw [List.find?_eq_none]
      intro d hd hpd
      simp only [Bool.and_eq_true, beq_iff_eq] at hpd
      exact hstat d hd hpd.1 hpd.2
    rw [hnone]
    rfl

/-- C3 witness: on the store where donation `"d1"` is already
`"assignedForCollection"`, both assignments fail with the guard error and
leave the store untouched. -/
theorem assign_guards_precondition_failed_witness :
    assignCollectionTask demoAdmin "d1" "v2" "tm9" "t9" "m9" 9 true demoDB2 =
      (.error preconditionFailedCollection, demoDB2) ∧
    assignDistributionTask demoAdmin "d1" "v2" "11" "tm9" "t9" "m9" 9 true demoDB2 =
      (.error preconditionFailedDistribution, demoDB2) :=
  ⟨(assign_guards_precondition_failed demoAdmin "d1" "v2" "11" "tm9" "t9" "m9" 9
      true demoDB2 demoOrg).1 rfl (by decide) (by decide),
   (assign_guards_precondition_failed demoAdmin "d1" "v2" "11" "tm9" "t9" "m9" 9
      true demoDB2 demoOrg).2 rfl (by decide) (by decide) (by rfl) (by decide)⟩

/-- C6: `reassignTask` on an existing task replaces the assigned volunteer,
resets the status to `"assigned"`, clears the issue flag and notes, and stamps
a fresh `assignedAt`, while every other task field, every other task, all
donations and all metrics are left unchanged. -/
theorem reassign_task_frame {db : DB} {pre post : List Task} {t : Task}
    (hdb : db.tasks = pre ++ t :: post)
    (hpre : ∀ x ∈ pre, (x.taskId == t.taskId) = false)
    (a : Caller) (nv : String) (now : Nat)
    (ha : a.role = "Admin") (hnv : nv ≠ "") :
    reassignTask a t.taskId nv now db =
      (.ok { t with
          volunteerId := nv, status := "assigned",
          issueReported := false, issueNotes := none, assignedAt := now },
       { db with
          tasks := pre ++ { t with
            volunteerId := nv, status := "assigned",
            issueReported := false, issueNotes := none, assignedAt := now } :: post }) ∧
    (reassignTask a t.taskId nv now db).2.donations = db.donations ∧
    (reassignTask a t.taskId nv now db).2.metrics = db.metrics := by
  have hfind : db.tasks.find? (fun x => x.taskId == t.taskId) = some t := by
    rw [hdb]
    exact find?_of_split _ post hpre (by simp)
  have hmain : reassignTask a t.taskId nv now db =
      (.ok { t with
          volunteerId := nv, status := "assigned",
          issueReported := false, issueNotes := none, assignedAt := now },
       { db with
          tasks := pre ++ { t with
            volunteerId := nv, status := "assigned",
            issueReported := false, issueNotes := none, assignedAt := now } :: post }) := by
    unfold reassignTask
    rw [if_neg (fun h => h ha), if_neg hnv, hfind]
    dsimp only
    rw [hdb, updateFirst_of_split _ _ post hpre (by simp)]
  exact ⟨hmain, by rw [hmain], by rw [hmain]⟩

/-- C6 witness: reassigning the reported demo task `"t1"` from `"v1"` to
`"v2"` produces exactly the reset task and leaves donations and metrics
untouched. -/
theorem reassign_task_frame_witness :
    reassignTask demoAdmin "t1" "v2" 10 demoDBr =
      (.ok { demoTaskLocked with
          volunteerId := "v2", status := "assigned",
          issueReported := false, issueNotes := none, assignedAt := 10 },
       { demoDBr with
          tasks := [{ demoTaskLocked with
            volunteerId := "v2", status := "assigned",
            issueReported := false, issueNotes := none, assignedAt := 10 }] }) ∧
    (reassignTask demoAdmin "t1" "v2" 10 demoDBr).2.donations = demoDBr.donations ∧
    (reassignTask demoAdmin "t1" "v2" 10 demoDBr).2.metrics = demoDBr.metrics :=
  @reassign_task_frame demoDBr [] [] demoTaskLocked (by decide)
    (fun x hx => absurd hx (by simp)) demoAdmin "v2" 10 rfl (by decide)

/-- C1 counterexample: a reachable run in which two distribution tasks are
successfully created for the same donation `"d1"` — re-completing the
collection task after the first distribution assignment moves the donation
back to `"collected"` and re-opens the distribution guard. -/
theorem two_distribution_tasks_counterexample :
    Reachable demoDB6 ∧
    demoAssignD1.1.isOk = true ∧
    demoAssignD2.1.isOk = true ∧
    distributionTaskCount demoDB6 "d1" = 2 :=
  ⟨reachable_demoDB6, rfl, rfl, rfl⟩

/-- C1 (amended): in every reachable store at most one collection task exists
per donation, and after a successful `assignCollectionTask` a second call on
the same donation fails and changes nothing; the analogous bound for
distribution tasks does not hold (see the counterexample). -/
theorem collection_unique_and_double_assign_rejected :
    (∀ db, Reachable db → ∀ did, collectionTaskCount db did ≤ 1) ∧
    (∀ (u1 : Caller) (did v1 tm1 tid1 mid1 : String) (now1 : Nat) (mok1 : Bool)
       (u2 : Caller) (v2 tm2 tid2 mid2 : String) (now2 : Nat) (mok2 : Bool)
       (db : DB), Reachable db →
       (assignCollectionTask u1 did v1 tm1 tid1 mid1 now1 mok1 db).1.isOk = true →
       (assignCollectionTask u2 did v2 tm2 tid2 mid2 now2 mok2
           (assignCollectionTask u1 did v1 tm1 tid1 mid1 now1 mok1 db).2).1.isOk =
         false ∧
       (assignCollectionTask u2 did v2 tm2 tid2 mid2 now2 mok2
           (assignCollectionTask u1 did v1 tm1 tid1 mid1 now1 mok1 db).2).2 =
         (assignCollectionTask u1 did v1 tm1 tid1 mid1 now1 mok1 db).2) := by
  constructor
  · intro db h did
    exact (goodDB_of_reachable h).collOne did
  · intro u1 did v1 tm1 tid1 mid1 now1 mok1 u2 v2 tm2 tid2 mid2 now2 mok2 db
      hreach hok
    rcases assignCollectionTask_cases u1 did v1 tm1 tid1 mid1 now1 mok1 db with
      ⟨hfail, _⟩ | ⟨donation, hfind, h2⟩
    · rw [hok] at hfail
      cases hfail
    · have hnone := no_pending_after_assign (goodDB_of_reachable hreach).nodup hfind
      rw [← h2] at hnone
      generalize hdb1 : (assignCollectionTask u1 did v1 tm1 tid1 mid1 now1 mok1 db).2
        = db1
      rw [hdb1] at hnone
      unfold assignCollectionTask
      split
      · exact ⟨rfl, rfl⟩
      split
      · exact ⟨rfl, rfl⟩
      split
      · exact ⟨rfl, rfl⟩
      rename_i donation2 hfind2
      rw [hnone] at hfind2
      cases hfind2

/-- C1 witness: donation `"d1"` never has two collection tasks, and the second
collection assignment attempted on the already-assigned store fails and leaves
the store untouched. -/
theorem collection_unique_witness :
    collectionTaskCount demoDB6 "d1" ≤ 1 ∧
    (assignCollectionTask demoAdmin "d1" "v2" "tm9" "t9" "m9" 9 true demoDB2).1.isOk
      = false ∧
    (assignCollectionTask demoAdmin "d1" "v2" "tm9" "t9" "m9" 9 true demoDB2).2 =
      demoDB2 :=
  ⟨collection_unique_and_double_assign_rejected.1 demoDB6 reachable_demoDB6 "d1",
   (collection_unique_and_double_assign_rejected.2 demoAdmin "d1" "v1" "tm1" "t1"
     "m2" 2 true demoAdmin "v2" "tm9" "t9" "m9" 9 true demoDB1
     reachable_demoDB1 rfl).1,
   (collection_unique_and_double_assign_rejected.2 demoAdmin "d1" "v1" "tm1" "t1"
     "m2" 2 true demoAdmin "v2" "tm9" "t9" "m9" 9 true demoDB1
     reachable_demoDB1 rfl).2⟩

/-- C2 counterexample: a reachable run in which a donation moves backwards —
`"assignedForDistribution"` after step 4, back to `"collected"` after the
collection task is completed a second time — so the status does not only
follow the forward edges of the lifecycle. -/
theorem status_reversal_counterexample :
    Reachable demoDB4 ∧
    demoDB4.donations.map (fun d => d.status) = ["assignedForDistribution"] ∧
    demoComplete2.1.isOk = true ∧
    demoDB5.donations.map (fun d => d.status) = ["collected"] :=
  ⟨reachable_demoDB4, rfl, rfl, rfl⟩

/-- C2 (amended): in every reachable store, every donation's status is one of
the five defined lifecycle values; the no-skip/no-reverse part of the claim
fails, because a repeated task completion re-applies its donation transition
from any later stage (see the counterexample). -/
theorem donation_status_always_in_range :
    ∀ db, Reachable db → ∀ d ∈ db.donations, d.status ∈ donationStatuses :=
  fun _ h => (goodDB_of_reachable h).statusGood

/-- C2 witness: the demo donation after assignment carries one of the five
lifecycle statuses. -/
theorem donation_status_witness : demoDonationD2.status ∈ donationStatuses :=
  donation_status_always_in_range demoDB2 reachable_demoDB2 demoDonationD2
    (by decide)

/-- C4: for a task owned by the calling volunteer and not locked by an issue,
`updateTaskStatus` with `"completed"` returns the task stamped with
`completedAt`; a collection task drives the linked donation to `"collected"`
(stamping `collectedAt` and the collecting volunteer) and bumps the
volunteer's `tasksCompleted` and `donationsCollected` by one; a distribution
task drives it to `"delivered"` (stamping `deliveredAt` and the distributing
volunteer) and bumps `tasksCompleted` and `donationsDelivered` by one; and
`"enRoute"` stamps `startedAt` touching neither donations nor metrics. -/
theorem update_task_status_completed_spec (user : Caller) (tmid : String)
    (now : Nat) (mId : String) {db : DB} {t : Task} {d : Donation}
    (hrole : user.role = "Volunteer")
    (hfind : db.tasks.find? (fun x => x.mid == tmid) = some t)
    (hown : t.volunteerId = user.uid)
    (hissue : t.issueReported = false)
    (hst : t.status ≠ "pending_review")
    (hdon : db.donations.find? (fun x => x.donationId == t.donationId) = some d) :
    (t.taskType = "collection" →
      (updateTaskStatus user tmid "completed" now true mId db).1 =
          .ok { t with status := "completed", completedAt := some now } ∧
      ((updateTaskStatus user tmid "completed" now true mId db).2.donations.find?
          (fun x => x.donationId == t.donationId)) =
        some { d with
          status := "collected", collectedAt := some now,
          collectedByVolunteerId := some user.uid } ∧
      tasksCompletedOf (updateTaskStatus user tmid "completed" now true mId db).2
          user.uid = tasksCompletedOf db user.uid + 1 ∧
      donationsCollectedOf
          (updateTaskStatus user tmid "completed" now true mId db).2 user.uid =
        donationsCollectedOf db user.uid + 1) ∧
    (t.taskType = "distribution" →
      (updateTaskStatus user tmid "completed" now true mId db).1 =
          .ok { t with status := "completed", completedAt := some now } ∧
      ((updateTaskStatus user tmid "completed" now true mId db).2.donations.find?
          (fun x => x.donationId == t.donationId)) =
        some { d with
          status := "delivered", deliveredAt := some now,
          distributionVolunteerId := some user.uid } ∧
      tasksCompletedOf (updateTaskStatus user tmid "completed" now true mId db).2
          user.uid = tasksCompletedOf db user.uid + 1 ∧
      donationsDeliveredOf
          (updateTaskStatus user tmid "completed" now true mId db).2 user.uid =
        donationsDeliveredOf db user.uid + 1) ∧
    ((updateTaskStatus user tmid "enRoute" now true mId db).1 =
        .ok { t with status := "enRoute", startedAt := some now } ∧
     (updateTaskStatus user tmid "enRoute" now true mId db).2.donations =
        db.donations ∧
     (updateTaskStatus user tmid "enRoute" now true mId db).2.metrics =
        db.metrics) :=
  ⟨fun htype => completedCollectionEffects user tmid now mId hrole hfind hown
      hissue hst htype hdon,
   fun htype => completedDistributionEffects user tmid now mId hrole hfind hown
      hissue hst htype hdon,
   enRouteEffects user tmid now true mId hrole hfind hown hissue hst⟩

/-- C4 witness: completing the demo collection task stamps it, drives the
donation to `"collected"` with `collectedAt` and the collecting volunteer, and
takes `"v1"`'s `tasksCompleted` and `donationsCollected` from 0 to 1. -/
theorem update_task_status_completed_witness :
    (updateTaskStatus demoVol1 "tm1" "completed" 3 true "m3" demoDB2).1 =
        .ok { demoTaskD2 with status := "completed", completedAt := some 3 } ∧
    ((updateTaskStatus demoVol1 "tm1" "completed" 3 true "m3" demoDB2).2.donations.find?
        (fun x => x.donationId == demoTaskD2.donationId)) =
      some { demoDonationD2 with
        status := "collected", collectedAt := some 3,
        collectedByVolunteerId := some "v1" } ∧
    tasksCompletedOf (updateTaskStatus demoVol1 "tm1" "completed" 3 true "m3"
        demoDB2).2 "v1" = tasksCompletedOf demoDB2 "v1" + 1 ∧
    donationsCollectedOf (updateTaskStatus demoVol1 "tm1" "completed" 3 true "m3"
        demoDB2).2 "v1" = donationsCollectedOf demoDB2 "v1" + 1 :=
  (update_task_status_completed_spec demoVol1 "tm1" 3 "m3" rfl (by rfl) rfl rfl
    (by decide) (by rfl)).1 rfl

/-- C5 counterexample: after `reportIssue` succeeds, a status update by a
volunteer who does not own the task fails with the ownership Forbidden
response, which is not the TaskLocked response — so not every volunteer's call
fails with `TaskLocked`. -/
theorem locked_task_wrong_error_counterexample :
    demoReport.1.isOk = true ∧
    demoLockedUpdate.1 =
      .error (.forbidden "Forbidden. You are not assigned to this task.") ∧
    (ApiError.forbidden "Forbidden. You are not assigned to this task.") ≠
      taskLockedError ∧
    demoLockedUpdate.2 = demoDBr :=
  ⟨rfl, rfl, by decide, rfl⟩

/-- C5 (amended): once `reportIssue` has succeeded on a task, every
`updateTaskStatus` call on it fails and changes nothing — the assigned
volunteer with TaskLocked, any other volunteer with the ownership error —
until `reassignTask` succeeds, clearing the lock (`issueReported = false`,
status `"assigned"`) and handing the task to the new volunteer, whose status
updates are then accepted again. -/
theorem issue_lock_until_reassign {db : DB} {pre post : List Task} {t : Task}
    (hdb : db.tasks = pre ++ t :: post)
    (hpre_mid : ∀ x ∈ pre, (x.mid == t.mid) = false)
    (hpre_tid : ∀ x ∈ pre, (x.taskId == t.taskId) = false)
    (hlock : t.issueReported = true ∧ t.status = "pending_review") :
    (∀ (v : Caller) (s : String) (now : Nat) (mok : Bool) (mId : String),
       (updateTaskStatus v t.mid s now mok mId db).1.isOk = false ∧
       (updateTaskStatus v t.mid s now mok mId db).2 = db) ∧
    (∀ (v : Caller) (s : String) (now : Nat) (mok : Bool) (mId : String),
       v.role = "Volunteer" → v.uid = t.volunteerId →
       (s = "enRoute" ∨ s = "completed" ∨ s = "cancelled" ∨ s = "failed") →
       updateTaskStatus v t.mid s now mok mId db = (.error taskLockedError, db)) ∧
    (∀ (a : Caller) (nv : String) (now : Nat),
       a.role = "Admin" → nv ≠ "" →
       reassignTask a t.taskId nv now db =
         (.ok { t with
             volunteerId := nv, status := "assigned",
             issueReported := false, issueNotes := none, assignedAt := now },
          { db with
             tasks := pre ++ { t with
               volunteerId := nv, status := "assigned",
               issueReported := false, issueNotes := none,
               assignedAt := now } :: post }) ∧
       (∀ (v : Caller) (s : String) (now2 : Nat) (mok : Bool) (mId : String),
          v.role = "Volunteer" → v.uid = nv →
          (s = "enRoute" ∨ s = "completed" ∨ s = "cancelled" ∨ s = "failed") →
          (updateTaskStatus v t.mid s now2 mok mId
            { db with
               tasks := pre ++ { t with
                 volunteerId := nv, status := "assigned",
                 issueReported := false, issueNotes := none,
                 assignedAt := now } :: post }).1.isOk = true)) := by
  have hfind : db.tasks.find? (fun x => x.mid == t.mid) = some t := by
    rw [hdb]
    exact find?_of_split _ post hpre_mid (by simp)
  refine ⟨?_, ?_, ?_⟩
  · intro v s now mok mId
    unfold updateTaskStatus
    split
    · exact ⟨rfl, rfl⟩
    split
    · exact ⟨rfl, rfl⟩
    rw [hfind]
    dsimp only
    split
    · exact ⟨rfl, rfl⟩
    · rw [if_pos (Or.inl hlock.1)]
      exact ⟨rfl, rfl⟩
  · intro v s now mok mId hrole huid hs
    unfold updateTaskStatus
    rw [if_neg (fun h => h hrole), if_neg (not_not_intro hs), hfind]
    dsimp only
    rw [if_neg (fun h => h huid.symm), if_pos (Or.inl hlock.1)]
    rfl
  · intro a nv now ha hnv
    have hfindtid : db.tasks.find? (fun x => x.taskId == t.taskId) = some t := by
      rw [hdb]
      exact find?_of_split _ post hpre_tid (by simp)
    constructor
    · unfold reassignTask
      rw [if_neg (fun h => h ha), if_neg hnv, hfindtid]
      dsimp only
      rw [hdb, updateFirst_of_split _ _ post hpre_tid (by simp)]
    · intro v s now2 mok mId hvrole hvuid hs
      have hfind2 : ({ db with
          tasks := pre ++ ({ t with
            volunteerId := nv, status := "assigned",
            issueReported := false, issueNotes := none,
            assignedAt := now } : Task) :: post } : DB).tasks.find?
          (fun x => x.mid == t.mid) =
            some ({ t with
              volunteerId := nv, status := "assigned",
              issueReported := false, issueNotes := none,
              assignedAt := now } : Task) :=
        find?_of_split _ post hpre_mid (by simp)
      rw [updateTaskStatus_success v t.mid s now2 mok mId hvrole hs hfind2
        hvuid.symm rfl (show ("assigned" : String) ≠ "pending_review" by decide)]
      rfl

/-- C5 witness: on the demo store with the reported task, the other
volunteer's update fails and changes nothing, the owner's update fails with
TaskLocked, reassignment to `"v2"` clears the lock, and `"v2"`'s update is
then accepted. -/
theorem issue_lock_witness :
    ((updateTaskStatus demoVol2 "tm1" "enRoute" 4 true "m9" demoDBr).1.isOk =
        false ∧
     (updateTaskStatus demoVol2 "tm1" "enRoute" 4 true "m9" demoDBr).2 =
        demoDBr) ∧
    updateTaskStatus demoVol1 "tm1" "enRoute" 4 true "m9" demoDBr =
      (.error taskLockedError, demoDBr) ∧
    reassignTask demoAdmin "t1" "v2" 10 demoDBr =
      (.ok { demoTaskLocked with
          volunteerId := "v2", status := "assigned",
          issueReported := false, issueNotes := none, assignedAt := 10 },
       { demoDBr with
          tasks := [{ demoTaskLocked with
            volunteerId := "v2", status := "assigned",
            issueReported := false, issueNotes := none, assignedAt := 10 }] }) ∧
    (updateTaskStatus demoVol2 "tm1" "enRoute" 11 true "m9"
      { demoDBr with
         tasks := [{ demoTaskLocked with
           volunteerId := "v2", status := "assigned",
           issueReported := false, issueNotes := none,
           assignedAt := 10 }] }).1.isOk = true := by
  have H := @issue_lock_until_reassign demoDBr [] [] demoTaskLocked (by decide)
    (fun x hx => absurd hx (by simp)) (fun x hx => absurd hx (by simp)) ⟨rfl, rfl⟩
  exact ⟨H.1 demoVol2 "enRoute" 4 true "m9",
         H.2.1 demoVol1 "enRoute" 4 true "m9" rfl rfl (Or.inl rfl),
         (H.2.2 demoAdmin "v2" 10 rfl (by decide)).1,
         (H.2.2 demoAdmin "v2" 10 rfl (by decide)).2 demoVol2 "enRoute" 11 true
           "m9" rfl rfl (Or.inl rfl)⟩

/-- C7: the three metrics updates are create-if-absent — when the user has no
record, one is created already carrying the single increment — and the
donation quantity is parsed best-effort, a non-numeric string such as
`"10 lbs"` contributing 0 to `foodItemsCollected` while
`totalDonationsPosted` is still incremented. -/
theorem metrics_create_if_absent :
    jsNumberOrZero "10 lbs" = 0 ∧
    (∀ (user : Caller) (itemType quantity pickupAddress : String)
       (coords : List ℚ) (availabilityTime : String) (notes : Option String)
       (docId mId : String) (now : Nat) (db : DB),
       (user.role = "Donor" ∨ user.role = "Admin") →
       itemType ≠ "" → quantity ≠ "" → pickupAddress ≠ "" →
       availabilityTime ≠ "" →
       (db.donations.any (fun d => d.donationId == docId)) = false →
       metricsFor db user.uid = none →
       metricsFor (postDonation user itemType quantity pickupAddress (some coords)
           availabilityTime notes docId mId now true db).2 user.uid =
         some { metricsId := mId, userId := user.uid, userType := "Donor",
                totalDonationsPosted := 1,
                foodItemsCollected := jsNumberOrZero quantity,
                createdAt := now, updatedAt := now }) ∧
    (∀ (user : Caller) (did vid tm tid mId : String) (now : Nat) (db : DB)
       (donation : Donation),
       user.role = "Admin" → vid ≠ "" →
       db.donations.find?
         (fun d => d.donationId == did && d.status == "pendingAssignment") =
           some donation →
       (db.tasks.any (fun x => x.taskId == tid || x.mid == tm)) = false →
       metricsFor db vid = none →
       metricsFor (assignCollectionTask user did vid tm tid mId now true db).2
           vid =
         some { metricsId := mId, userId := vid, userType := "Volunteer",
                tasksAssigned := 1, createdAt := now, updatedAt := now }) ∧
    (∀ (user : Caller) (did vid locId tm tid mId : String) (now : Nat) (db : DB)
       (org : Organization) (donation : Donation),
       user.role = "Admin" → vid ≠ "" → locId ≠ "" →
       db.orgs.find? (fun o => o.organizationId == locId) = some org →
       db.donations.find?
         (fun d => d.donationId == did && d.status == "collected") =
           some donation →
       (db.tasks.any (fun x => x.taskId == tid || x.mid == tm)) = false →
       metricsFor db vid = none →
       metricsFor (assignDistributionTask user did vid locId tm tid mId now true
           db).2 vid =
         some { metricsId := mId, userId := vid, userType := "Volunteer",
                tasksAssigned := 1, createdAt := now, updatedAt := now }) ∧
    (∀ (user : Caller) (tmid mId : String) (now : Nat) (db : DB) (t : Task),
       user.role = "Volunteer" →
       db.tasks.find? (fun x => x.mid == tmid) = some t →
       t.volunteerId = user.uid → t.issueReported = false →
       t.status ≠ "pending_review" →
       metricsFor db user.uid = none →
       metricsFor (updateTaskStatus user tmid "completed" now true mId db).2
           user.uid =
         some { metricsId := mId, userId := user.uid, userType := "Volunteer",
                tasksCompleted := 1,
                donationsCollected := if t.taskType == "collection" then 1 else 0,
                donationsDelivered := if t.taskType == "distribution" then 1 else 0,
                createdAt := now, updatedAt := now }) := by
  refine ⟨by decide, ?_, ?_, ?_, ?_⟩
  · intro user itemType quantity pickupAddress coords availabilityTime notes
      docId mId now db hrole hit hq hpa hav hdup habsent
    unfold postDonation
    rw [if_neg (not_not_intro hrole)]
    dsimp only
    rw [if_neg (fun h => h.elim hit (fun h => h.elim hq (fun h => h.elim hpa hav)))]
    rw [if_neg (fun h => by rw [hdup] at h; exact Bool.noConfusion h)]
    unfold metricsFor
    dsimp only
    rw [if_pos rfl, metricsFor_postDonationMetrics,
      show db.metrics.find? (fun m => m.userId == user.uid) = none from habsent]
  · intro user did vid tm tid mId now db donation hrole hvid hfind hdup habsent
    unfold assignCollectionTask
    rw [if_neg (fun h => h hrole), if_neg hvid, hfind]
    dsimp only
    rw [if_neg (fun h => by rw [hdup] at h; exact Bool.noConfusion h)]
    unfold metricsFor
    dsimp only
    rw [if_pos rfl, metricsFor_assignTaskMetrics,
      show db.metrics.find? (fun m => m.userId == vid) = none from habsent]
  · intro user did vid locId tm tid mId now db org donation hrole hvid hloc horg
      hfind hdup habsent
    unfold assignDistributionTask
    rw [if_neg (fun h => h hrole), if_neg (fun h => h.elim hvid hloc), horg]
    dsimp only
    rw [hfind]
    dsimp only
    rw [if_neg (fun h => by rw [hdup] at h; exact Bool.noConfusion h)]
    unfold metricsFor
    dsimp only
    rw [if_pos rfl, metricsFor_assignTaskMetrics,
      show db.metrics.find? (fun m => m.userId == vid) = none from habsent]
  · intro user tmid mId now db t hrole hfind hown hissue hst habsent
    rw [updateTaskStatus_success user tmid "completed" now true mId hrole
      (Or.inr (Or.inl rfl)) hfind hown hissue hst]
    unfold metricsFor
    dsimp only
    rw [if_pos ⟨rfl, rfl⟩, metricsFor_completeTaskMetrics,
      show db.metrics.find? (fun m => m.userId == user.uid) = none from habsent]

/-- C7 witness: in the demo run, posting with `"10 lbs"` creates the donor's
record with `totalDonationsPosted = 1` and `foodItemsCollected = 0`, the first
assignment creates `"v1"`'s record with `tasksAssigned = 1`, a distribution
assignment to the fresh `"v9"` creates `tasksAssigned = 1`, and a completion
with no prior record creates `tasksCompleted = donationsCollected = 1`. -/
theorem metrics_create_if_absent_witness :
    metricsFor demoDB1 "don1" =
      some { metricsId := "m1", userId := "don1", userType := "Donor",
             totalDonationsPosted := 1, foodItemsCollected := 0,
             createdAt := 1, updatedAt := 1 } ∧
    metricsFor demoDB2 "v1" =
      some { metricsId := "m2", userId := "v1", userType := "Volunteer",
             tasksAssigned := 1, createdAt := 2, updatedAt := 2 } ∧
    metricsFor (assignDistributionTask demoAdmin "d1" "v9" "11" "tmA" "tA" "mA"
        7 true demoDB3).2 "v9" =
      some { metricsId := "mA", userId := "v9", userType := "Volunteer",
             tasksAssigned := 1, createdAt := 7, updatedAt := 7 } ∧
    metricsFor (updateTaskStatus demoVol1 "tm1" "completed" 3 true "mB"
        { demoDB2 with metrics := [] }).2 "v1" =
      some { metricsId := "mB", userId := "v1", userType := "Volunteer",
             tasksCompleted := 1, donationsCollected := 1,
             donationsDelivered := 0, createdAt := 3, updatedAt := 3 } := by
  refine ⟨?_, ?_, ?_, ?_⟩
  · have h := metrics_create_if_absent.2.1 demoDonor "Rice" "10 lbs" "1 Main St"
      [76, 10] "2025-01-01T10:00" none "d1" "m1" 1 demoDB0 (Or.inl rfl)
      (by decide) (by decide) (by decide) (by decide) rfl rfl
    rw [metrics_create_if_absent.1] at h
    exact h
  · exact metrics_create_if_absent.2.2.1 demoAdmin "d1" "v1" "tm1" "t1" "m2" 2
      demoDB1 ({ demoDonationD2 with status := "pendingAssignment" }) rfl
      (by decide) (by rfl) rfl rfl
  · exact metrics_create_if_absent.2.2.2.1 demoAdmin "d1" "v9" "11" "tmA" "tA"
      "mA" 7 demoDB3 demoOrg
      ({ demoDonationD2 with
        status := "collected", collectedAt := some 3,
        collectedByVolunteerId := some "v1" }) rfl (by decide) (by decide)
      (by rfl) (by rfl) (by rfl) rfl
  · exact metrics_create_if_absent.2.2.2.2 demoVol1 "tm1" "mB" 3
      { demoDB2 with metrics := [] } demoTaskD2 rfl (by rfl) rfl rfl (by decide)
      rfl

/-- C10: `updateTaskStatus` never inspects the task's current status: with
ownership and no issue lock it accepts any of the four new statuses from any
current status; in particular a second `"completed"` call on an
already-completed collection task succeeds again, stamps a fresh
`completedAt`, re-drives the donation to `"collected"`, and increments the
volunteer's `tasksCompleted` and `donationsCollected` once more. -/
theorem update_status_ignores_current_status :
    (∀ (user : Caller) (tmid s : String) (now : Nat) (mok : Bool) (mId : String)
       (db : DB) (t : Task),
       user.role = "Volunteer" →
       (s = "enRoute" ∨ s = "completed" ∨ s = "cancelled" ∨ s = "failed") →
       db.tasks.find? (fun x => x.mid == tmid) = some t →
       t.volunteerId = user.uid → t.issueReported = false →
       t.status ≠ "pending_review" →
       (updateTaskStatus user tmid s now mok mId db).1.isOk = true) ∧
    (∀ (user : Caller) (tmid : String) (now : Nat) (mId : String) (db : DB)
       (t : Task) (d : Donation),
       user.role = "Volunteer" →
       db.tasks.find? (fun x => x.mid == tmid) = some t →
       t.volunteerId = user.uid → t.issueReported = false →
       t.status = "completed" → t.taskType = "collection" →
       db.donations.find? (fun x => x.donationId == t.donationId) = some d →
       (updateTaskStatus user tmid "completed" now true mId db).1 =
           .ok { t with status := "completed", completedAt := some now } ∧
       ((updateTaskStatus user tmid "completed" now true mId db).2.donations.find?
           (fun x => x.donationId == t.donationId)) =
         some { d with
           status := "collected", collectedAt := some now,
           collectedByVolunteerId := some user.uid } ∧
       tasksCompletedOf (updateTaskStatus user tmid "completed" now true mId
           db).2 user.uid = tasksCompletedOf db user.uid + 1 ∧
       donationsCollectedOf (updateTaskStatus user tmid "completed" now true mId
           db).2 user.uid = donationsCollectedOf db user.uid + 1) := by
  constructor
  · intro user tmid s now mok mId db t hrole hs hfind hown hissue hst
    rw [updateTaskStatus_success user tmid s now mok mId hrole hs hfind hown
      hissue hst]
    rfl
  · intro user tmid now mId db t d hrole hfind hown hissue hcompleted htype hdon
    exact completedCollectionEffects user tmid now mId hrole hfind hown hissue
      (by rw [hcompleted]; decide) htype hdon

/-- C10 witness: the second completion of the demo collection task (already
`"completed"`, donation already `"assignedForDistribution"`) succeeds,
restamps `completedAt`, re-drives the donation to `"collected"`, and bumps
`"v1"`'s counters a second time. -/
theorem update_status_ignores_current_status_witness :
    (updateTaskStatus demoVol1 "tm1" "completed" 5 true "m5" demoDB4).1 =
        .ok { demoTaskD4 with status := "completed", completedAt := some 5 } ∧
    ((updateTaskStatus demoVol1 "tm1" "completed" 5 true "m5"
        demoDB4).2.donations.find?
        (fun x => x.donationId == demoTaskD4.donationId)) =
      some { demoDonationD4 with
        status := "collected", collectedAt := some 5,
        collectedByVolunteerId := some "v1" } ∧
    tasksCompletedOf demoDB5 "v1" = tasksCompletedOf demoDB4 "v1" + 1 ∧
    donationsCollectedOf demoDB5 "v1" = donationsCollectedOf demoDB4 "v1" + 1 :=
  update_status_ignores_current_status.2 demoVol1 "tm1" 5 "m5" demoDB4
    demoTaskD4 demoDonationD4 rfl (by rfl) rfl rfl rfl rfl (by rfl)

end NourishLink
